import Mathlib

/-!
Verification development for the AI-TEXT-RPG backend's response-parsing and
state-reconciliation pipeline.

The JavaScript sources embedded here are:
* `ai-rpg-backend/utils/responseParser.js` — text extraction, JSON decoding with
  regex fallback, and state-change validation (`parseGameResponse`,
  `sanitizeNarrative`, `validateStateChanges`, `extractAndFixStateChanges`);
* `ai-rpg-backend/controllers/gameController.js` — the state reducer
  (`updateGameState`) and initial-state construction (`initializeGameState`);
* the world-generator service — `parseWorldGeneration`, `validateWorldData`,
  `enhanceWorldData`, `generateNearbyLocations`, `generateBasicNPCs`,
  `generateEnvironment`, `getFallbackWorld`, `generateWorld`.

Modelling conventions:
* JavaScript numbers occurring in this pipeline are integers (health,
  experience, durations, relationship scores), so they are embedded as `Int`.
* JSON values are the inductive `Json`; property access on a JS primitive
  yields `undefined`, embedded as `none` from `getField`.
  (Property access on `null` throws a `TypeError` in JS; every such access in
  the embedded code sits under a `try`/`catch` whose handler is itself
  modelled, and the claims under study never reach such an input, so
  `getField` also returns `none` there.)
* `Date.now()` / `new Date().toISOString()` is an ambient input of
  `updateGameState`; it is made explicit as the `now : String` parameter.
* `Math.random()`-driven choices in `generateEnvironment` are made explicit
  as the `EnvRand` parameter (one index per uniform draw).
* Text scanners that mirror JavaScript regexes recurse on an explicit `fuel`
  argument, always called with more fuel than the input length.
-/

/-! ## JavaScript primitives -/

/-- Characters treated as whitespace by JS `\s`, `trim()` and JSON. -/
def isJsWs (c : Char) : Bool :=
  c = ' ' ∨ c = '\t' ∨ c = '\n' ∨ c = '\r' ∨ c = Char.ofNat 11 ∨ c = Char.ofNat 12

/-- The `{` character (written via its code point). -/
def lbrace : Char := Char.ofNat 123

/-- The `}` character (written via its code point). -/
def rbrace : Char := Char.ofNat 125

/-- The `"` character. -/
def dquote : Char := Char.ofNat 34

/-- JS `String.prototype.trim()` on a character list. -/
def trimCs (cs : List Char) : List Char :=
  ((cs.dropWhile isJsWs).reverse.dropWhile isJsWs).reverse

/-- JS `String.prototype.trim()`. -/
def jsTrim (s : String) : String :=
  (trimCs s.toList).asString

/-- Does `cs` start with `pat`? -/
def startsWithCs : List Char → List Char → Bool
  | _, [] => true
  | [], _ :: _ => false
  | c :: cs, p :: ps => c = p && startsWithCs cs ps

/-- Split `hay` around the first occurrence of `pat`:
`some (before, after)` with `hay = before ++ pat ++ after`. -/
def splitAtSub : List Char → List Char → Option (List Char × List Char)
  | [], pat => if pat.isEmpty then some ([], []) else none
  | hay@(c :: rest), pat =>
      if startsWithCs hay pat then some ([], hay.drop pat.length)
      else match splitAtSub rest pat with
           | some (pre, post) => some (c :: pre, post)
           | none => none

/-- JSON values (the result of `JSON.parse` and the shape of decoded change
sets). Numbers are integers, matching every numeric value this pipeline
produces or consumes. -/
inductive Json where
  | null : Json
  | bool : Bool → Json
  | num : Int → Json
  | str : String → Json
  | arr : List Json → Json
  | obj : List (String × Json) → Json

/-- JS truthiness of a JSON value (`undefined` is handled by `Option`). -/
def jsTruthy : Json → Bool
  | Json.null => false
  | Json.bool b => b
  | Json.num n => n ≠ 0
  | Json.str s => s ≠ ""
  | Json.arr _ => true
  | Json.obj _ => true

/-- JS property access `v[k]`: `none` models `undefined`. On objects with
duplicate keys the last binding wins, matching `JSON.parse`. -/
def getField (v : Json) (k : String) : Option Json :=
  match v with
  | Json.obj fields => fields.foldl (fun acc p => if p.1 = k then some p.2 else acc) none
  | _ => none

mutual

/-- JS `String()` coercion of a JSON value (arrays join with `,`,
objects print as `[object Object]`). -/
def jsToString : Json → String
  | Json.null => "null"
  | Json.bool b => if b then "true" else "false"
  | Json.num n => toString n
  | Json.str s => s
  | Json.arr xs => jsToStringArr xs
  | Json.obj _ => "[object Object]"

/-- Array elements joined with `,`; a `null` element prints as empty. -/
def jsToStringArr : List Json → String
  | [] => ""
  | [Json.null] => ""
  | [v] => jsToString v
  | Json.null :: xs => "," ++ jsToStringArr xs
  | v :: xs => jsToString v ++ "," ++ jsToStringArr xs

end

/-- Digits to a natural number. -/
def digitsToNat (cs : List Char) : Nat :=
  cs.foldl (fun acc c => acc * 10 + (c.toNat - 48)) 0

/-- JS `Number(string)` restricted to the integer literals this pipeline
meets: trimmed empty string is `0`, an optional sign followed by digits is
that integer, anything else is `NaN` (`none`). -/
def jsStrToNumber (s : String) : Option Int :=
  let cs := trimCs s.toList
  match cs with
  | [] => some 0
  | '-' :: ds => if ds ≠ [] ∧ ds.all Char.isDigit then some (-(digitsToNat ds : Int)) else none
  | '+' :: ds => if ds ≠ [] ∧ ds.all Char.isDigit then some ((digitsToNat ds : Int)) else none
  | ds => if ds.all Char.isDigit then some ((digitsToNat ds : Int)) else none

/-- JS `Number()` coercion of a JSON value; `none` models `NaN`.
(`Number([])` is `0` and `Number([x])` coerces the single element.) -/
def jsToNumber : Json → Option Int
  | Json.null => some 0
  | Json.bool b => some (if b then 1 else 0)
  | Json.num n => some n
  | Json.str s => jsStrToNumber s
  | Json.arr [] => some 0
  | Json.arr [x] => jsToNumber x
  | Json.arr _ => none
  | Json.obj _ => none

/-- JS `x || d` for an optional integer field (`undefined` and `0` are falsy). -/
def jsOrInt (x : Option Int) (d : Int) : Int :=
  match x with
  | none => d
  | some n => if n = 0 then d else n

/-! ## JSON.parse -/

/-- Skip JSON whitespace. -/
def skipWs (cs : List Char) : List Char := cs.dropWhile isJsWs

/-- Parse the body of a JSON string after the opening quote, handling the
standard escapes. Returns the string and the remainder after the closing
quote. -/
def parseJsonString (fuel : Nat) (cs : List Char) : Option (List Char × List Char) :=
  match fuel, cs with
  | 0, _ => none
  | _, [] => none
  | fuel + 1, c :: rest =>
      if c = dquote then some ([], rest)
      else if c = '\\' then
        match rest with
        | [] => none
        | e :: rest' =>
            let esc : Option Char :=
              if e = dquote then some dquote
              else if e = '\\' then some '\\'
              else if e = '/' then some '/'
              else if e = 'n' then some '\n'
              else if e = 't' then some '\t'
              else if e = 'r' then some '\r'
              else if e = 'b' then some (Char.ofNat 8)
              else if e = 'f' then some (Char.ofNat 12)
              else none
            match esc with
            | none => none
            | some ch =>
                match parseJsonString fuel rest' with
                | some (s, rem) => some (ch :: s, rem)
                | none => none
      else
        match parseJsonString fuel rest with
        | some (s, rem) => some (c :: s, rem)
        | none => none

/-- Parse a JSON integer numeral (optional minus, no leading zeros). The
change sets and world data of this program only carry integer numerals, so
fractions and exponents are outside the embedding's scope. -/
def parseJsonNumber (cs : List Char) : Option (Int × List Char) :=
  let (neg, body) := match cs with
    | '-' :: rest => (true, rest)
    | _ => (false, cs)
  let digits := body.takeWhile Char.isDigit
  let rest := body.dropWhile Char.isDigit
  if digits.isEmpty then none
  else if digits.length > 1 ∧ digits.headD '0' = '0' then none
  else
    match rest with
    | '.' :: _ => none
    | 'e' :: _ => none
    | 'E' :: _ => none
    | _ =>
        let n : Int := digitsToNat digits
        some (if neg then -n else n, rest)

mutual

/-- Parse one JSON value, returning it with the unconsumed remainder. -/
def parseJsonValue (fuel : Nat) (cs : List Char) : Option (Json × List Char) :=
  match fuel with
  | 0 => none
  | fuel + 1 =>
      let cs := skipWs cs
      match cs with
      | [] => none
      | c :: rest =>
          if c = dquote then
            match parseJsonString fuel rest with
            | some (s, rem) => some (Json.str s.asString, rem)
            | none => none
          else if c = lbrace then
            parseJsonObj fuel rest true
          else if c = '[' then
            parseJsonArr fuel rest true
          else if startsWithCs cs ['t', 'r', 'u', 'e'] then
            some (Json.bool true, cs.drop 4)
          else if startsWithCs cs ['f', 'a', 'l', 's', 'e'] then
            some (Json.bool false, cs.drop 5)
          else if startsWithCs cs ['n', 'u', 'l', 'l'] then
            some (Json.null, cs.drop 4)
          else
            match parseJsonNumber cs with
            | some (n, rem) => some (Json.num n, rem)
            | none => none

/-- Parse the members of a JSON object after `{` (when `first` is true no
member has been read yet, so `}` closes an empty object). -/
def parseJsonObj (fuel : Nat) (cs : List Char) (first : Bool) : Option (Json × List Char) :=
  match fuel with
  | 0 => none
  | fuel + 1 =>
      let cs := skipWs cs
      match cs with
      | [] => none
      | c :: rest =>
          if first ∧ c = rbrace then some (Json.obj [], rest)
          else if c ≠ dquote then none
          else
            match parseJsonString fuel rest with
            | none => none
            | some (k, afterKey) =>
                match skipWs afterKey with
                | ':' :: afterColon =>
                    match parseJsonValue fuel afterColon with
                    | none => none
                    | some (v, afterVal) =>
                        match skipWs afterVal with
                        | ',' :: more =>
                            match parseJsonObj fuel more false with
                            | some (Json.obj fields, rem) =>
                                some (Json.obj ((k.asString, v) :: fields), rem)
                            | _ => none
                        | c' :: more =>
                            if c' = rbrace then some (Json.obj [(k.asString, v)], more)
                            else none
                        | [] => none
                | _ => none

/-- Parse the elements of a JSON array after `[`. -/
def parseJsonArr (fuel : Nat) (cs : List Char) (first : Bool) : Option (Json × List Char) :=
  match fuel with
  | 0 => none
  | fuel + 1 =>
      let cs := skipWs cs
      match cs with
      | [] => none
      | ']' :: rest =>
          if first then some (Json.arr [], rest) else none
      | _ =>
          match parseJsonValue fuel cs with
          | none => none
          | some (v, afterVal) =>
              match skipWs afterVal with
              | ',' :: more =>
                  match parseJsonArr fuel more false with
                  | some (Json.arr xs, rem) => some (Json.arr (v :: xs), rem)
                  | _ => none
              | ']' :: more => some (Json.arr [v], more)
              | _ => none

end

/-- `JSON.parse`: a full-input parse; `none` models a thrown `SyntaxError`. -/
def jsonParse (s : String) : Option Json :=
  let cs := s.toList
  match parseJsonValue (cs.length + 2) cs with
  | some (v, rest) => if (skipWs rest).isEmpty then some v else none
  | none => none

/-! ## Game data model (gameController.js / responseParser.js) -/

/-- A location `{id, name, description}`. -/
structure Location where
  id : String
  name : String
  description : String
  deriving DecidableEq, Repr

/-- A quest is either a plain string or an object with a title, an optional
description and an objectives array (kept as raw JSON, as the source does). -/
inductive Quest where
  | strq : String → Quest
  | objq : (title : String) → (description : String) → (objectives : List Json) → Quest

/-- An NPC relationship value: a number or a free-text string. -/
inductive NpcVal where
  | num : Int → NpcVal
  | str : String → NpcVal

/-- A status effect `{name, description, duration, effect}` (the `effect`
payload is opaque JSON). -/
structure StatusEffect where
  name : String
  description : String
  duration : Int
  effect : Json

/-- One `gameHistory` entry `{type, text}`. -/
structure HistoryEntry where
  htype : String
  text : String
  deriving DecidableEq, Repr

/-- `lastAction`: `{text, timestamp}`. -/
structure LastAction where
  text : String
  timestamp : String
  deriving DecidableEq, Repr

/-- The `world` summary stored in the game state. -/
structure WorldInfo where
  name : String
  wtype : String
  description : String
  deriving DecidableEq, Repr

/-- The `player` sub-object. `level` and `statusEffects` are optional because
saved states created before those fields existed omit them, and the reducer
guards for that (`level || 1`, `if (!statusEffects)`). -/
structure Player where
  name : String
  health : Int
  inventory : List String
  quests : List Quest
  experience : Int
  level : Option Int
  statusEffects : Option (List StatusEffect)

/-- The root game state. Fields the reducer never reads or writes (skills,
plot hooks, created-at, …) are carried unchanged by the deep clone in the
source and are omitted here. -/
structure GameState where
  player : Player
  world : WorldInfo
  currentLocation : Location
  gameHistory : List HistoryEntry
  discoveredLocations : List String
  npcRelationships : List (String × NpcVal)
  timeElapsed : Int
  lastAction : Option LastAction
  gameOver : Bool

/-- The validated change set produced by `validateStateChanges`: every field
optional, absent means "no change". -/
structure ValidatedChanges where
  health : Option Int := none
  addItems : Option (List String) := none
  removeItems : Option (List String) := none
  newLocation : Option Location := none
  addQuests : Option (List Quest) := none
  npcRelationships : Option (List (String × NpcVal)) := none
  experience : Option Int := none
  statusEffects : Option (List StatusEffect) := none

/-- The empty validated change set. -/
def noChanges : ValidatedChanges := {}

/-- `String(x).toLowerCase().replace(/\s+/g, '_')`: location-id
normalization. Whitespace runs collapse to single underscores. -/
def normalizeId (s : String) : String :=
  (normLoop false (s.toList.map Char.toLower)).asString
where
  /-- `inWs` records whether the previous character was whitespace, so each
  maximal whitespace run emits exactly one underscore. -/
  normLoop : Bool → List Char → List Char
  | _, [] => []
  | inWs, c :: rest =>
      if isJsWs c then
        if inWs then normLoop true rest else '_' :: normLoop true rest
      else c :: normLoop false rest

/-- JS `typeof v === 'object'` for a JSON value (true for `null`, arrays and
objects). -/
def isObjType : Json → Bool
  | Json.null => true
  | Json.arr _ => true
  | Json.obj _ => true
  | _ => false

/-- Truthiness of an optional field value (`undefined` is falsy). -/
def fieldTruthy (v : Option Json) : Bool :=
  match v with
  | none => false
  | some j => jsTruthy j

/-- The filter applied to `addQuests` array elements:
`typeof quest === 'string' || (typeof quest === 'object' && quest.title)`.
A `null` element never reaches this filter in the embedding: on `null` the
JS filter throws a `TypeError` (`typeof null === 'object'` and then
`null.title`), which `validateStateChanges` models as its `none` result
before any field is processed (see `addQuestsThrows`). -/
def questKeep (q : Json) : Bool :=
  match q with
  | Json.str _ => true
  | _ => isObjType q && fieldTruthy (getField q "title")

/-- Normalization of one kept `addQuests` element. -/
def mkQuest (q : Json) : Quest :=
  match q with
  | Json.str s => Quest.strq (jsTrim s)
  | _ =>
      Quest.objq (jsTrim (jsToString ((getField q "title").getD Json.null)))
        (match getField q "description" with
         | some d => if jsTruthy d then jsTrim (jsToString d) else ""
         | none => "")
        (match getField q "objectives" with
         | some (Json.arr xs) => xs
         | _ => [])

/-- `Object.entries` over a JSON value that passed the
`typeof === 'object'` check (arrays enumerate index keys). -/
def objEntries : Json → List (String × Json)
  | Json.obj fs => fs
  | Json.arr xs => xs.enum.map (fun p => (toString p.1, p.2))
  | _ => []

/-- Normalization of one kept `statusEffects` element. -/
def mkStatusEffect (e : Json) : StatusEffect :=
  { name := jsTrim (jsToString ((getField e "name").getD Json.null))
    description :=
      match getField e "description" with
      | some d => if jsTruthy d then jsTrim (jsToString d) else ""
      | none => ""
    duration :=
      match getField e "duration" with
      | some d =>
          match jsToNumber d with
          | some n => if n = 0 then 5 else n
          | none => 5
      | none => 5
    effect :=
      match getField e "effect" with
      | some v => if jsTruthy v then v else Json.obj []
      | none => Json.obj [] }

/-- The field-by-field body of `validateStateChanges` (responseParser.js
134-254): type checking, range clamping and cross-reference checks; a
field of the wrong shape is dropped. This is the value the JS function
returns when none of its property accesses throws; the throwing cases are
modelled in `validateStateChanges` below. -/
def validatedFields (changes : Json) (currentState : GameState) : ValidatedChanges :=
  { health :=
      match getField changes "health" with
      | none => none
      | some hv =>
          match jsToNumber hv with
          | some h => some (max 0 (min 100 h))
          | none => none
    addItems :=
      match getField changes "addItems" with
      | none => none
      | some av =>
          if jsTruthy av then
            match av with
            | Json.arr xs =>
                some (xs.filterMap (fun x =>
                  match x with
                  | Json.str s => some (jsTrim s)
                  | _ => none))
            | Json.str s => some [jsTrim s]
            | _ => none
          else none
    removeItems :=
      match getField changes "removeItems" with
      | none => none
      | some rv =>
          if jsTruthy rv then
            match rv with
            | Json.arr xs =>
                some ((xs.filterMap (fun x =>
                  match x with
                  | Json.str s => some (jsTrim s)
                  | _ => none)).filter
                    (fun i => currentState.player.inventory.contains i))
            | Json.str s =>
                let item := jsTrim s
                if currentState.player.inventory.contains item then some [item] else none
            | _ => none
          else none
    newLocation :=
      match getField changes "newLocation" with
      | none => none
      | some lv =>
          if jsTruthy lv then
            if fieldTruthy (getField lv "id") && fieldTruthy (getField lv "name")
                && fieldTruthy (getField lv "description") then
              some { id := normalizeId (jsToString ((getField lv "id").getD Json.null))
                     name := jsTrim (jsToString ((getField lv "name").getD Json.null))
                     description := jsTrim (jsToString ((getField lv "description").getD Json.null)) }
            else none
          else none
    addQuests :=
      match getField changes "addQuests" with
      | none => none
      | some qv =>
          if jsTruthy qv then
            match qv with
            | Json.arr xs => some ((xs.filter questKeep).map mkQuest)
            | Json.str s => some [Quest.strq (jsTrim s)]
            | _ =>
                if isObjType qv && fieldTruthy (getField qv "title") then
                  some [mkQuest qv]
                else none
          else none
    npcRelationships :=
      match getField changes "npcRelationships" with
      | none => none
      | some nv =>
          if jsTruthy nv && isObjType nv then
            some ((objEntries nv).filterMap (fun p =>
              match p.2 with
              | Json.num n => some (jsTrim p.1, NpcVal.num (max 0 (min 100 n)))
              | Json.str s => some (jsTrim p.1, NpcVal.str (jsTrim s))
              | _ => none))
          else none
    experience :=
      match getField changes "experience" with
      | none => none
      | some ev =>
          match jsToNumber ev with
          | some e => some (max 0 e)
          | none => none
    statusEffects :=
      match getField changes "statusEffects" with
      | none => none
      | some sv =>
          match sv with
          | Json.arr xs =>
              some ((xs.filter (fun e =>
                jsTruthy e && isObjType e && fieldTruthy (getField e "name"))).map
                  mkStatusEffect)
          | _ => none }

/-- Does the `addQuests` filter throw? It does exactly when the field is
an array holding a `null` element: the filter evaluates
`typeof null === 'object'` (true in JS) and then `null.title`, a
`TypeError`. -/
def addQuestsThrows (changes : Json) : Bool :=
  match getField changes "addQuests" with
  | some (Json.arr xs) => xs.any (fun q => match q with | Json.null => true | _ => false)
  | _ => false

/-- `validateStateChanges(changes, currentState)` from responseParser.js:
field-by-field type checking, range clamping and cross-reference checks; a
field of the wrong shape is dropped. `none` models the `TypeError` the JS
function throws — when `changes` is `null` itself (the very first property
access `changes.health` throws) or when an `addQuests` array contains a
`null` element (see `addQuestsThrows`); `parseGameResponse`'s `catch`
turns either into the generic-narrative response. On every other input the
function returns the validated field record. -/
def validateStateChanges (changes : Json) (currentState : GameState) :
    Option ValidatedChanges :=
  match changes with
  | Json.null => none
  | _ =>
      if addQuestsThrows changes then none
      else some (validatedFields changes currentState)

/-! ## State reducer: updateGameState (gameController.js 411-615) -/

/-- Append entries to the history of a state. -/
def pushHistory (s : GameState) (es : List HistoryEntry) : GameState :=
  { s with gameHistory := s.gameHistory ++ es }

/-- Step 1: push the `{action}` and `{narrative}` entries and set
`lastAction` from the wall clock. -/
def applyAction (now : String) (action narrative : String) (s : GameState) : GameState :=
  { s with
    gameHistory := s.gameHistory ++
      [{ htype := "action", text := action }, { htype := "narrative", text := narrative }]
    lastAction := some { text := action, timestamp := now } }

/-- Step 2: set health if provided; a result ≤ 0 appends the death entry and
sets `gameOver`. -/
def applyHealth (ch : ValidatedChanges) (s : GameState) : GameState :=
  match ch.health with
  | none => s
  | some h =>
      let s := { s with player := { s.player with health := h } }
      if s.player.health ≤ 0 then
        { s with
          gameHistory := s.gameHistory ++ [{ htype := "system", text := "You have died. Game over." }]
          gameOver := true }
      else s

/-- One `addItems` element: skip duplicates, otherwise append and log. -/
def addItemFold (s : GameState) (item : String) : GameState :=
  if s.player.inventory.contains item then s
  else
    { s with
      player := { s.player with inventory := s.player.inventory ++ [item] }
      gameHistory := s.gameHistory ++ [{ htype := "system", text := "Added to inventory: " ++ item }] }

/-- Step 3: add items to the inventory. -/
def applyAddItems (ch : ValidatedChanges) (s : GameState) : GameState :=
  match ch.addItems with
  | none => s
  | some items => items.foldl addItemFold s

/-- One `removeItems` element: remove the first occurrence if present. -/
def removeItemFold (s : GameState) (item : String) : GameState :=
  if s.player.inventory.contains item then
    { s with
      player := { s.player with inventory := s.player.inventory.erase item }
      gameHistory := s.gameHistory ++ [{ htype := "system", text := "Removed from inventory: " ++ item }] }
  else s

/-- Step 4: remove items from the inventory. -/
def applyRemoveItems (ch : ValidatedChanges) (s : GameState) : GameState :=
  match ch.removeItems with
  | none => s
  | some items => items.foldl removeItemFold s

/-- Step 5: replace the current location; a not-yet-discovered id is
appended to `discoveredLocations` with +10 experience and a log entry. -/
def applyLocation (ch : ValidatedChanges) (s : GameState) : GameState :=
  match ch.newLocation with
  | none => s
  | some loc =>
      let s := { s with currentLocation := loc }
      if loc.id ≠ "" && !(s.discoveredLocations.contains loc.id) then
        { s with
          discoveredLocations := s.discoveredLocations ++ [loc.id]
          player := { s.player with experience := s.player.experience + 10 }
          gameHistory := s.gameHistory ++
            [{ htype := "system", text := "Discovered new location: " ++ loc.name }] }
      else s

/-- Does a quest already exist in the player's list (string equality for
string quests, title equality for object quests, as the `===` checks do)? -/
def questExists (qs : List Quest) : Quest → Bool
  | Quest.strq t => qs.any (fun q => match q with | Quest.strq u => u = t | _ => false)
  | Quest.objq t _ _ => qs.any (fun q => match q with | Quest.objq u _ _ => u = t | _ => false)

/-- The displayed name of a quest. -/
def questName : Quest → String
  | Quest.strq t => t
  | Quest.objq t _ _ => t

/-- One `addQuests` element: append if new, log, +15 experience. -/
def addQuestFold (s : GameState) (q : Quest) : GameState :=
  if questExists s.player.quests q then s
  else
    { s with
      player := { s.player with
        quests := s.player.quests ++ [q]
        experience := s.player.experience + 15 }
      gameHistory := s.gameHistory ++ [{ htype := "system", text := "New quest: " ++ questName q }] }

/-- Step 6: add quests. -/
def applyQuests (ch : ValidatedChanges) (s : GameState) : GameState :=
  match ch.addQuests with
  | none => s
  | some qs => qs.foldl addQuestFold s

/-- Assignment `m[k] = v` on the relationship mapping (keys are unique). -/
def setNpc (m : List (String × NpcVal)) (k : String) (v : NpcVal) : List (String × NpcVal) :=
  if m.any (fun p => p.1 = k) then m.map (fun p => if p.1 = k then (k, v) else p)
  else m ++ [(k, v)]

/-- Step 7: merge NPC relationship entries (overwrite on key match). -/
def applyNpc (ch : ValidatedChanges) (s : GameState) : GameState :=
  match ch.npcRelationships with
  | none => s
  | some entries =>
      { s with npcRelationships :=
          entries.foldl (fun m p => setNpc m p.1 p.2) s.npcRelationships }

/-- The `duration || 5` re-defaulting applied when a status effect is
pushed onto the player. -/
def pushedEffect (e : StatusEffect) : StatusEffect :=
  { e with duration := if e.duration = 0 then 5 else e.duration }

/-- One `statusEffects` element: append if no active effect shares the name,
with the `duration || 5` re-defaulting done at the push site. -/
def addEffectFold (s : GameState) (e : StatusEffect) : GameState :=
  if (s.player.statusEffects.getD []).any (fun a => a.name = e.name) then s
  else
    { s with
      player :=
        { s.player with statusEffects := some (s.player.statusEffects.getD [] ++ [pushedEffect e]) }
      gameHistory := s.gameHistory ++
        [{ htype := "system", text := "Status effect: " ++ e.name ++ " - " ++ e.description }] }

/-- Step 8: add status effects (initializing the list when absent). -/
def applyStatusEffects (ch : ValidatedChanges) (s : GameState) : GameState :=
  match ch.statusEffects with
  | none => s
  | some effs =>
      let s :=
        match s.player.statusEffects with
        | none => { s with player := { s.player with statusEffects := some [] } }
        | some _ => s
      effs.foldl addEffectFold s

/-- Step 9: add experience points (`if (stateChanges.experience)` is a
truthiness test, so a zero award is skipped entirely). -/
def applyExperience (ch : ValidatedChanges) (s : GameState) : GameState :=
  match ch.experience with
  | none => s
  | some e =>
      if e ≠ 0 then
        let s := { s with player := { s.player with experience := s.player.experience + e } }
        if e > 0 then
          { s with gameHistory := s.gameHistory ++
              [{ htype := "system", text := "Experience gained: " ++ toString e }] }
        else s
      else s

/-- The per-turn status-effect update as a list function: decrement every
duration, drop the expired. -/
def tickList (l : List StatusEffect) : List StatusEffect :=
  (l.map (fun e => { e with duration := e.duration - 1 })).filter (fun e => e.duration > 0)

/-- Step 10: decrement every active status-effect duration and drop the
expired ones. -/
def tickStatusEffects (s : GameState) : GameState :=
  match s.player.statusEffects with
  | none => s
  | some effs =>
      if effs.length > 0 then
        { s with player := { s.player with statusEffects := some (tickList effs) } }
      else s

/-- Step 11: advance time; at a day boundary heal +10 (capped at 100) and
log the new day. -/
def applyTime (s : GameState) : GameState :=
  let s := { s with timeElapsed := s.timeElapsed + 1 }
  if s.timeElapsed % 24 = 0 then
    { s with
      player := { s.player with health := min 100 (s.player.health + 10) }
      gameHistory := s.gameHistory ++
        [{ htype := "system",
           text := "Day " ++ toString (Int.fdiv s.timeElapsed 24) ++ " begins. You feel refreshed." }] }
  else s

/-- Step 12: a single level-up check (`if`, not `while`): when accumulated
experience reaches `100 * currentLevel`, consume the threshold, bump the
level, heal to 100 and log. -/
def applyLevel (s : GameState) : GameState :=
  let currentLevel := jsOrInt s.player.level 1
  let experienceThreshold := 100 * currentLevel
  if (if s.player.experience = 0 then 0 else s.player.experience) ≥ experienceThreshold then
    { s with
      player := { s.player with
        level := some (currentLevel + 1)
        experience := s.player.experience - experienceThreshold
        health := 100 }
      gameHistory := s.gameHistory ++
        [{ htype := "system",
           text := "Level Up! You are now level " ++ toString (currentLevel + 1) ++ "." }] }
  else s

/-- Step 13: keep only the most recent 50 history entries. -/
def truncateHistory (s : GameState) : GameState :=
  if s.gameHistory.length > 50 then
    { s with gameHistory := s.gameHistory.drop (s.gameHistory.length - 50) }
  else s

/-- Steps 2-13 of the reducer (everything after the action/narrative push). -/
def reduceChanges (ch : ValidatedChanges) (s : GameState) : GameState :=
  truncateHistory (applyLevel (applyTime (tickStatusEffects
    (applyExperience ch (applyStatusEffects ch (applyNpc ch (applyQuests ch
      (applyLocation ch (applyRemoveItems ch (applyAddItems ch (applyHealth ch s)))))))))))

/-- `updateGameState(currentState, action, narrative, stateChanges)`:
the full reducer, with the wall-clock reading made explicit. -/
def updateGameState (now : String) (currentState : GameState) (action narrative : String)
    (stateChanges : ValidatedChanges) : GameState :=
  reduceChanges stateChanges (applyAction now action narrative currentState)

/-! ## Text extractor and decoder (responseParser.js 13-126, 261-352) -/

/-- The backtick character (written via its code point). -/
def btick : Char := Char.ofNat 96

/-- Capture group of `/NARRATIVE:(.*?)(?=STATE_CHANGES:|$)/s`: the text
between the first `NARRATIVE:` marker and the first following
`STATE_CHANGES:` marker (or the end); `none` when the marker is absent. -/
def narrativeCapture (raw : String) : Option String :=
  match splitAtSub raw.toList ("NARRATIVE:".toList) with
  | none => none
  | some (_, rest) =>
      match splitAtSub rest ("STATE_CHANGES:".toList) with
      | some (captured, _) => some captured.asString
      | none => some rest.asString

/-- Capture group of `/STATE_CHANGES:(.*)/s`: everything after the first
`STATE_CHANGES:` marker. -/
def stateChangesCapture (raw : String) : Option String :=
  (splitAtSub raw.toList ("STATE_CHANGES:".toList)).map (fun p => p.2.asString)

/-- Try to consume `\s*` followed by `close`, returning the remainder. -/
def matchWsThen (close : Char) : List Char → Option (List Char)
  | [] => none
  | c :: rest =>
      if c = close then some rest
      else if isJsWs c then matchWsThen close rest
      else none

/-- One global pass of `.replace(/,\s*X/g, 'X')` for a closing character. -/
def replCommaThen (close : Char) (fuel : Nat) (cs : List Char) : List Char :=
  match fuel with
  | 0 => cs
  | fuel + 1 =>
      match cs with
      | [] => []
      | c :: rest =>
          if c = ',' then
            match matchWsThen close rest with
            | some tail => close :: replCommaThen close fuel tail
            | none => c :: replCommaThen close fuel rest
          else c :: replCommaThen close fuel rest

/-- The trailing-comma repair: `.replace(/,\s*}/g, '}').replace(/,\s*]/g, ']')`.
A purely textual substitution, applied even inside string literals. -/
def cleanJsonString (s : String) : String :=
  let cs := s.toList
  let pass1 := replCommaThen rbrace (cs.length + 1) cs
  (replCommaThen ']' (pass1.length + 1) pass1).asString

/-- `.replace(/^#+\s+/gm, '')`: strip a run of `#` plus following whitespace
at each line start. `lineStart` tracks the `^` anchor (multiline). -/
def stripHeadings (fuel : Nat) (lineStart : Bool) (cs : List Char) : List Char :=
  match fuel with
  | 0 => cs
  | fuel + 1 =>
      match cs with
      | [] => []
      | c :: rest =>
          if lineStart && c = '#' then
            let afterHash := cs.dropWhile (fun x => x = '#')
            let ws := afterHash.takeWhile isJsWs
            if ws.isEmpty then c :: stripHeadings fuel false rest
            else stripHeadings fuel (ws.getLastD ' ' = '\n') (afterHash.dropWhile isJsWs)
          else c :: stripHeadings fuel (c = '\n') rest

/-- Remove fenced code blocks: `.replace(/` three backticks, `[^`]*`, three
backticks `/g, '')`. -/
def stripFences (fuel : Nat) (cs : List Char) : List Char :=
  match fuel with
  | 0 => cs
  | fuel + 1 =>
      match cs with
      | [] => []
      | c :: rest =>
          if startsWithCs cs [btick, btick, btick] then
            let after := (cs.drop 3).dropWhile (fun x => x ≠ btick)
            if startsWithCs after [btick, btick, btick] then
              stripFences fuel (after.drop 3)
            else c :: stripFences fuel rest
          else c :: stripFences fuel rest

/-- Case-insensitive prefix test. -/
def startsWithCI : List Char → List Char → Bool
  | _, [] => true
  | [], _ :: _ => false
  | c :: cs, p :: ps => c.toLower = p.toLower && startsWithCI cs ps

/-- Remove every case-insensitive occurrence of `tok`
(`.replace(/tok/gi, '')`). -/
def stripTokenCI (fuel : Nat) (tok : List Char) (cs : List Char) : List Char :=
  match fuel with
  | 0 => cs
  | fuel + 1 =>
      match cs with
      | [] => []
      | c :: rest =>
          if startsWithCI cs tok then stripTokenCI fuel tok (cs.drop tok.length)
          else c :: stripTokenCI fuel tok rest

/-- `sanitizeNarrative(narrative)`: strip markdown headings, fenced code
blocks and stray `NARRATIVE:` / `STATE_CHANGES:` markers, then trim. -/
def sanitizeNarrative (narrative : String) : String :=
  let cs := narrative.toList
  let s1 := stripHeadings (cs.length + 1) true cs
  let s2 := stripFences (s1.length + 1) s1
  let s3 := stripTokenCI (s2.length + 1) ("NARRATIVE:".toList) s2
  let s4 := stripTokenCI (s3.length + 1) ("STATE_CHANGES:".toList) s3
  (trimCs s4).asString

/-- Regex search `/key\s*(\d+)/`-style: first position where the literal
`key` is followed by optional whitespace and at least one digit; the digits
are returned as the `parseInt(..., 10)` value. -/
def findKeyNum (fuel : Nat) (key : List Char) (cs : List Char) : Option Int :=
  match fuel with
  | 0 => none
  | fuel + 1 =>
      match splitAtSub cs key with
      | none => none
      | some (_, rest) =>
          let digits := (rest.dropWhile isJsWs).takeWhile Char.isDigit
          if digits.isEmpty then findKeyNum fuel key rest
          else some ((digitsToNat digits : Nat) : Int)

/-- Regex search for `key` followed by optional whitespace, `openC`, a lazy
body and the first `closeC`; returns the captured body. -/
def findKeyBetween (fuel : Nat) (key : List Char) (openC closeC : Char)
    (cs : List Char) : Option (List Char) :=
  match fuel with
  | 0 => none
  | fuel + 1 =>
      match splitAtSub cs key with
      | none => none
      | some (_, rest) =>
          match rest.dropWhile isJsWs with
          | c :: body =>
              if c = openC then
                match splitAtSub body [closeC] with
                | some (captured, _) => some captured
                | none => findKeyBetween fuel key openC closeC rest
              else findKeyBetween fuel key openC closeC rest
          | [] => none

/-- Regex search for `key` followed by optional whitespace and a quoted
string; returns the text between the quotes (`"key":\s*"([^"]*)"`). -/
def findQuotedField (fuel : Nat) (key : List Char) (cs : List Char) : Option String :=
  match fuel with
  | 0 => none
  | fuel + 1 =>
      match splitAtSub cs key with
      | none => none
      | some (_, rest) =>
          match rest.dropWhile isJsWs with
          | c :: body =>
              if c = dquote then
                match splitAtSub body [dquote] with
                | some (captured, _) => some captured.asString
                | none => findQuotedField fuel key rest
              else findQuotedField fuel key rest
          | [] => none

/-- JS `String.prototype.split(',')` on a character list. -/
def splitOnComma : List Char → List (List Char)
  | [] => [[]]
  | ',' :: rest => [] :: splitOnComma rest
  | c :: rest =>
      match splitOnComma rest with
      | g :: gs => (c :: g) :: gs
      | [] => [[c]]

/-- `.split(',').map(i => i.trim().replace(/"/g, '')).filter(i => i.length > 0)`:
the item decoding shared by the `addItems`, `removeItems` and `addQuests`
fallback extractors. -/
def commaItems (cs : List Char) : List String :=
  (splitOnComma cs).filterMap (fun i =>
    let cleaned := (trimCs i).filter (fun c => c ≠ dquote)
    if cleaned.isEmpty then none else some cleaned.asString)

/-- All matches of the global pair regex `/"([^"]*)":\s*([^,}]*)/g`, each
returned as its full matched text. -/
def npcPairsScan (fuel : Nat) (cs : List Char) : List (List Char) :=
  match fuel with
  | 0 => []
  | fuel + 1 =>
      match cs with
      | [] => []
      | c :: rest =>
          if c = dquote then
            match splitAtSub rest [dquote] with
            | some (key, afterKey) =>
                match afterKey with
                | ':' :: afterColon =>
                    let ws := afterColon.takeWhile isJsWs
                    let afterWs := afterColon.dropWhile isJsWs
                    let value := afterWs.takeWhile (fun ch => ch ≠ ',' && ch ≠ rbrace)
                    ([dquote] ++ key ++ [dquote, ':'] ++ ws ++ value) ::
                      npcPairsScan fuel (afterWs.drop value.length)
                | _ => npcPairsScan fuel rest
            | none => npcPairsScan fuel rest
          else npcPairsScan fuel rest

/-- `pair.match(/"([^"]*)"/)`: the first quoted text of a pair. -/
def npcPairKey (pair : List Char) : Option String :=
  match splitAtSub pair [dquote] with
  | none => none
  | some (_, rest) =>
      match splitAtSub rest [dquote] with
      | some (k, _) => some k.asString
      | none => none

/-- `pair.match(/:\s*([^,}]*)/)`: the value capture from the first colon. -/
def npcPairValue (pair : List Char) : Option String :=
  match splitAtSub pair [':'] with
  | none => none
  | some (_, rest) =>
      some (((rest.dropWhile isJsWs).takeWhile (fun ch => ch ≠ ',' && ch ≠ rbrace)).asString)

/-- JS object assignment `fields[k] = v` (overwrite on key match). -/
def assignField (fs : List (String × Json)) (k : String) (v : Json) : List (String × Json) :=
  if fs.any (fun p => p.1 = k) then fs.map (fun p => if p.1 = k then (k, v) else p)
  else fs ++ [(k, v)]

/-- `extractAndFixStateChanges(stateChangesText)`: best-effort regex
recovery of individual fields from malformed JSON-like text; fields that
match nothing are simply absent, and nothing matching yields `{}`. -/
def extractAndFixStateChanges (stateChangesText : String) : Json :=
  let cs := stateChangesText.toList
  let fuel := cs.length + 1
  let f0 : List (String × Json) := []
  let f1 :=
    match findKeyNum fuel ("\"health\":".toList) cs with
    | some h => f0 ++ [("health", Json.num h)]
    | none => f0
  let f2 :=
    match findKeyBetween fuel ("\"addItems\":".toList) '[' ']' cs with
    | some captured =>
        if captured.isEmpty then f1
        else f1 ++ [("addItems", Json.arr ((commaItems captured).map Json.str))]
    | none => f1
  let f3 :=
    match findKeyBetween fuel ("\"removeItems\":".toList) '[' ']' cs with
    | some captured =>
        if captured.isEmpty then f2
        else f2 ++ [("removeItems", Json.arr ((commaItems captured).map Json.str))]
    | none => f2
  let f4 :=
    match findKeyBetween fuel ("\"newLocation\":".toList) lbrace rbrace cs with
    | some captured =>
        if captured.isEmpty then f3
        else
          match findQuotedField fuel ("\"id\":".toList) captured,
                findQuotedField fuel ("\"name\":".toList) captured,
                findQuotedField fuel ("\"description\":".toList) captured with
          | some i, some n, some d =>
              f3 ++ [("newLocation", Json.obj
                [("id", Json.str i), ("name", Json.str n), ("description", Json.str d)])]
          | _, _, _ => f3
    | none => f3
  let f5 :=
    match findKeyBetween fuel ("\"addQuests\":".toList) '[' ']' cs with
    | some captured =>
        if captured.isEmpty then f4
        else f4 ++ [("addQuests", Json.arr ((commaItems captured).map Json.str))]
    | none => f4
  let f6 :=
    match findKeyBetween fuel ("\"npcRelationships\":".toList) lbrace rbrace cs with
    | some captured =>
        if captured.isEmpty then f5
        else
          let pairs := npcPairsScan (captured.length + 1) captured
          let entries := pairs.foldl (fun acc pair =>
            match npcPairKey pair, npcPairValue pair with
            | some k, some v =>
                let value := jsTrim v
                match jsStrToNumber value with
                | some n => assignField acc k (Json.num n)
                | none =>
                    assignField acc k (Json.str (value.toList.filter (fun c => c ≠ dquote)).asString)
            | _, _ => acc) ([] : List (String × Json))
          f5 ++ [("npcRelationships", Json.obj entries)]
    | none => f5
  let f7 :=
    match findKeyNum fuel ("\"experience\":".toList) cs with
    | some e => f6 ++ [("experience", Json.num e)]
    | none => f6
  Json.obj f7

/-- The state-changes decoding inside `parseGameResponse`: strict JSON parse
after the trailing-comma repair, falling back to the regex recovery on a
parse failure; an absent or empty capture yields `{}`. -/
def decodeStateChanges (rawResponse : String) : Json :=
  match stateChangesCapture rawResponse with
  | none => Json.obj []
  | some txt =>
      if txt = "" then Json.obj []
      else
        match jsonParse (cleanJsonString (jsTrim txt)) with
        | some j => j
        | none => extractAndFixStateChanges txt

/-- `parseGameResponse(rawResponse, currentGameState)`: extract the
narrative (whole-string fallback when the capture is missing or empty),
decode the state-changes section, validate, and sanitize the narrative.
The outer `try`/`catch` (responseParser.js 51-57) is modelled explicitly:
when `validateStateChanges` throws, the function returns the fixed generic
narrative (unsanitized, as in the source) and the empty change set, so the
whole function still never fails. -/
def parseGameResponse (rawResponse : String) (currentGameState : GameState) :
    String × ValidatedChanges :=
  let narrative :=
    match narrativeCapture rawResponse with
    | some captured => if captured = "" then rawResponse else jsTrim captured
    | none => rawResponse
  let stateChanges := decodeStateChanges rawResponse
  match validateStateChanges stateChanges currentGameState with
  | some validatedChanges => (sanitizeNarrative narrative, validatedChanges)
  | none =>
      ("The magical forces seem confused. Please try another action.", noChanges)

/-- The change set one turn of the pipeline actually applies for a decoded
change set: the validated record, or — when `validateStateChanges` throws —
the empty change set substituted by `parseGameResponse`'s `catch`. -/
def appliedChanges (chg : Json) (s : GameState) : ValidatedChanges :=
  match validateStateChanges chg s with
  | some v => v
  | none => noChanges

/-- One full turn of the core pipeline, as `processAction` composes it:
parse the model response against the current state, then reduce. The
wall-clock reading is the explicit `now` input. -/
def applyTurn (now : String) (previousState : GameState) (action modelResponseText : String) :
    String × GameState :=
  let parsed := parseGameResponse modelResponseText previousState
  (parsed.1, updateGameState now previousState action parsed.1 parsed.2)

/-- The world settings consumed by `initializeGameState`. -/
structure WorldSettings where
  name : String
  wtype : String
  description : String
  startingLocation : Location
  introText : String

/-- `initializeGameState` (gameController.js 678-725), restricted to the
fields of `GameState`: fresh player, starting location, intro narrative, and
`discoveredLocations = [startingLocation.id]`. -/
def initializeGameState (characterName : String) (worldSettings : WorldSettings) : GameState :=
  { player :=
      { name := characterName
        health := 100
        inventory := ["torch", "water flask", "map"]
        quests := []
        experience := 0
        level := some 1
        statusEffects := some [] }
    world :=
      { name := worldSettings.name
        wtype := worldSettings.wtype
        description := worldSettings.description }
    currentLocation := worldSettings.startingLocation
    gameHistory := [{ htype := "narrative", text := worldSettings.introText }]
    discoveredLocations := [worldSettings.startingLocation.id]
    npcRelationships := []
    timeElapsed := 0
    lastAction := none
    gameOver := false }

/-! ## World generator service (worldGenerator, src/unnamed/part_000) -/

/-- Build a `{id, name, description}` JSON object. -/
def jloc (i n d : String) : Json :=
  Json.obj [("id", Json.str i), ("name", Json.str n), ("description", Json.str d)]

/-- Build a `{name, description}` JSON object. -/
def jnd (n d : String) : Json :=
  Json.obj [("name", Json.str n), ("description", Json.str d)]

/-- Build a `{id, name, description, relationship}` JSON object. -/
def jnpc (i n d : String) (r : Int) : Json :=
  Json.obj [("id", Json.str i), ("name", Json.str n), ("description", Json.str d),
            ("relationship", Json.num r)]

/-- `getFallbackWorld()` (lines 524-576): the fixed world returned when
generation fails. -/
def getFallbackWorld : Json :=
  Json.obj
    [("type", Json.str "fantasy"),
     ("name", Json.str "Eldoria"),
     ("description", Json.str "A realm of magic and mystery, where ancient forests hide forgotten secrets and mythical creatures roam the wilderness."),
     ("startingLocation", jloc "forest_edge" "Forest Edge"
        "A dense, misty forest with ancient trees. A narrow path winds its way between massive trunks, disappearing into the shadows. The air is thick with the scent of moss and rain."),
     ("introText", Json.str "You find yourself standing at the edge of a dense, misty forest. A narrow path winds its way between ancient trees, disappearing into the shadows. The air is thick with the scent of moss and rain. In the distance, you hear the faint sound of flowing water and what might be voices. Your journey in Eldoria begins here, at the threshold of the unknown."),
     ("potentialPlotHooks", Json.arr
        [Json.str "Strange symbols carved into trees",
         Json.str "Rumors of a hidden temple",
         Json.str "Villagers disappearing in the night"]),
     ("factions", Json.arr
        [jnd "The Guardians of the Grove" "Protectors of the forest who follow ancient druidic traditions.",
         jnd "The Imperial Order" "Representatives of the distant empire, seeking to expand their influence."]),
     ("keyItems", Json.arr
        [jnd "Ancient Amulet" "A mysterious amulet that glows faintly in the presence of magic.",
         jnd "Forest Map" "A weathered map showing hidden paths through the dense woods."]),
     ("nearbyLocations", Json.arr
        [jloc "village_clearing" "Village Clearing" "A small settlement at the edge of the forest where traders and travelers rest.",
         jloc "ancient_ruins" "Ancient Ruins" "Crumbling stone structures covered in vines and moss, hinting at a civilization long gone.",
         jloc "mystic_grove" "Mystic Grove" "A peaceful clearing where magical flora grows and strange lights float in the air."]),
     ("npcs", Json.arr
        [jnpc "village_elder" "Elder Thorne" "A wise village elder with knowledge of the forest and its secrets." 50,
         jnpc "wandering_merchant" "Trader Lyra" "A traveling merchant who deals in rare and unusual goods." 50,
         jnpc "mysterious_stranger" "The Hooded Figure" "A silent observer who seems to appear and disappear at will." 30]),
     ("environment", Json.obj
        [("time", Json.str "dusk"), ("weather", Json.str "misty"), ("season", Json.str "autumn")])]

/-- The regex `/{[\s\S]*}/`: the substring from the first `{` through the
last `}` (when both exist in that order). -/
def extractBraces (s : String) : Option String :=
  match splitAtSub s.toList [lbrace] with
  | none => none
  | some (_, afterOpen) =>
      match splitAtSub afterOpen.reverse [rbrace] with
      | none => none
      | some (_, revBody) => some ((lbrace :: (revBody.reverse ++ [rbrace])).asString)

/-- JS property assignment `v[k] = x` in sloppy mode: overwrite or append on
an object, a silent no-op on a primitive. -/
def jsonSet (v : Json) (k : String) (x : Json) : Json :=
  match v with
  | Json.obj fs => Json.obj (assignField fs k x)
  | other => other

/-- Template-literal interpolation of a possibly-undefined value. -/
def tmpl (o : Option Json) : String :=
  match o with
  | none => "undefined"
  | some j => jsToString j

/-- `if (!x || !Array.isArray(x) || x.length === 0) v[k] = d`. -/
def ensureArrField (v : Json) (k : String) (d : Json) : Json :=
  match getField v k with
  | some (Json.arr (_ :: _)) => v
  | _ => jsonSet v k d

/-- `validateWorldData(worldData)` (lines 305-382): fill in defaults for
missing fields. `none` models the `TypeError` thrown when a truthy
non-string `startingLocation.id` meets `.toLowerCase()` (the caller's
`catch` turns it into the fallback world). -/
def validateWorldData (worldData : Json) : Option Json :=
  let v := worldData
  let v := if fieldTruthy (getField v "type") then v else jsonSet v "type" (Json.str "fantasy")
  let v := if fieldTruthy (getField v "name") then v else jsonSet v "name" (Json.str "Unnamed Realm")
  let v := if fieldTruthy (getField v "description") then v
           else jsonSet v "description" (Json.str "A mysterious world awaiting exploration.")
  let step : Option Json :=
    if ¬ fieldTruthy (getField v "startingLocation") then
      some (jsonSet v "startingLocation"
        (jloc "starting_point" "Starting Point" "The beginning of your adventure."))
    else
      let sl := (getField v "startingLocation").getD Json.null
      let idStep : Option Json :=
        if fieldTruthy (getField sl "id") then
          match (getField sl "id").getD Json.null with
          | Json.str s => some (jsonSet sl "id" (Json.str (normalizeId s)))
          | _ => none
        else some (jsonSet sl "id" (Json.str "starting_point"))
      match idStep with
      | none => none
      | some sl =>
          let sl := if fieldTruthy (getField sl "name") then sl
                    else jsonSet sl "name" (Json.str "Starting Point")
          let sl := if fieldTruthy (getField sl "description") then sl
                    else jsonSet sl "description" (Json.str "The beginning of your adventure.")
          some (jsonSet v "startingLocation" sl)
  match step with
  | none => none
  | some v =>
      let v :=
        if fieldTruthy (getField v "introText") then v
        else
          jsonSet v "introText" (Json.str
            ("Welcome to " ++ tmpl (getField v "name") ++ ", a " ++ tmpl (getField v "type") ++
             " world waiting to be explored. Your adventure begins at " ++
             tmpl (getField ((getField v "startingLocation").getD Json.null) "name") ++ "."))
      let v := ensureArrField v "potentialPlotHooks" (Json.arr
        [Json.str "Strange rumors of disappearances in the area",
         Json.str "A mysterious artifact that locals speak of in hushed tones",
         Json.str "Political tension between rival factions"])
      let v := ensureArrField v "factions" (Json.arr
        [jnd "The Guardians" "Protectors of the old ways and keepers of ancient knowledge.",
         jnd "The Seekers" "A group dedicated to uncovering lost treasures and forgotten magic."])
      let v := ensureArrField v "keyItems" (Json.arr
        [jnd "Ancient Map" "A weathered map showing locations of mysterious significance.",
         jnd "Strange Amulet" "An amulet that seems to pulse with unknown energy."])
      some v

/-- `parseWorldGeneration(response)` (worldGenerator variant, lines
284-298): greedy brace extraction, JSON parse, validation; any failure
returns the fallback world. -/
def parseWorldGeneration (response : String) : Json :=
  match extractBraces response with
  | none => getFallbackWorld
  | some t =>
      match jsonParse t with
      | none => getFallbackWorld
      | some j =>
          match validateWorldData j with
          | some validated => validated
          | none => getFallbackWorld

/-- The lookup key `worldData.type.toLowerCase()`; `none` models the
`TypeError` on a missing or non-string `type`. -/
def worldTypeKey (worldData : Json) : Option String :=
  match getField worldData "type" with
  | some (Json.str t) => some (t.toList.map Char.toLower).asString
  | _ => none

/-- The `locationSets` table of `generateNearbyLocations` (lines 417-443). -/
def locationSets (key : String) : List Json :=
  if key = "fantasy" then
    [jloc "village_square" "Village Square" "The bustling center of the nearby settlement, filled with merchants and townsfolk.",
     jloc "ancient_ruins" "Ancient Ruins" "Crumbling stone structures covered in vines and moss, hinting at a civilization long gone.",
     jloc "dark_forest" "Dark Forest" "A dense forest where sunlight barely penetrates the thick canopy of leaves overhead."]
  else if key = "sci-fi" then
    [jloc "space_port" "Space Port" "A busy docking area for interstellar vessels, filled with travelers from distant worlds.",
     jloc "research_lab" "Research Laboratory" "A sterile facility where scientists conduct experiments with advanced technology.",
     jloc "alien_market" "Xenomarket" "A crowded market where traders sell exotic goods from across the galaxy."]
  else if key = "post-apocalyptic" then
    [jloc "ruined_city" "Ruined City" "The hollow shell of a once-thriving metropolis, now home to scavengers and dangers.",
     jloc "survivor_camp" "Survivor Camp" "A fortified encampment where the remaining humans have banded together for safety.",
     jloc "toxic_wastes" "Toxic Wastes" "A hazardous area where chemicals have contaminated the landscape, creating mutated flora and fauna."]
  else if key = "steampunk" then
    [jloc "clockwork_district" "Clockwork District" "A section of the city filled with whirring gears and steam-powered machinery.",
     jloc "airship_docks" "Airship Docks" "Massive platforms where airships dock, loading and unloading passengers and cargo.",
     jloc "inventors_guild" "Inventors\x27 Guild" "A prestigious building where brilliant minds develop new mechanical wonders."]
  else if key = "cyberpunk" then
    [jloc "neon_market" "Neon Market" "A chaotic marketplace illuminated by colorful holographic advertisements.",
     jloc "corporate_sector" "Corporate Sector" "Towering skyscrapers where megacorporations control the fate of millions.",
     jloc "underground_club" "Underground Club" "A hidden nightclub where hackers and rebels gather away from prying eyes."]
  else []

/-- `generateNearbyLocations(worldData)` (lines 413-449):
`locationSets[locationType] || locationSets.fantasy`. -/
def generateNearbyLocations (worldData : Json) : Option Json :=
  match worldTypeKey worldData with
  | none => none
  | some key =>
      let locs := locationSets key
      some (Json.arr (if locs.isEmpty then locationSets "fantasy" else locs))

/-- The `npcSets` table of `generateBasicNPCs` (lines 460-486). -/
def npcSets (key : String) : List Json :=
  if key = "fantasy" then
    [jnpc "village_elder" "Elder Thorne" "A wise village elder with knowledge of the land." 50,
     jnpc "mysterious_stranger" "The Hooded Figure" "A traveler who speaks little but seems to know much about recent events." 30,
     jnpc "tavern_keeper" "Innkeeper Mira" "The cheerful proprietor of the local tavern, a hub of gossip and information." 60]
  else if key = "sci-fi" then
    [jnpc "station_ai" "ARIA" "The artificial intelligence that manages the station systems." 50,
     jnpc "smuggler" "Captain Rax" "A ship captain who transports goods of questionable legality across systems." 40,
     jnpc "scientist" "Dr. Elara Vex" "A brilliant xenobiologist studying alien lifeforms." 55]
  else if key = "post-apocalyptic" then
    [jnpc "wasteland_guide" "Scrapper Jones" "A seasoned survivor who knows how to navigate the dangerous wastes." 45,
     jnpc "trade_merchant" "Barter" "A resourceful merchant who deals in salvaged goods and vital supplies." 50,
     jnpc "doctor" "Doc Myers" "One of the few remaining medical professionals, treating injuries and radiation sickness." 60]
  else if key = "steampunk" then
    [jnpc "inventor" "Professor Cogsworth" "An eccentric inventor always working on the next revolutionary device." 55,
     jnpc "airship_captain" "Captain Victoria Wells" "The stern but fair captain of an airship that travels between major cities." 50,
     jnpc "aristocrat" "Lord Pemberton" "A wealthy nobleman with connections throughout high society." 40]
  else if key = "cyberpunk" then
    [jnpc "hacker" "Glitch" "A skilled netrunner who can breach almost any security system for the right price." 45,
     jnpc "fixer" "Jax" "A well-connected middleman who arranges jobs and deals in the shadows." 50,
     jnpc "street_doc" "Dr. Circuit" "An underground surgeon specializing in cybernetic implants and modifications." 55]
  else []

/-- `generateBasicNPCs(worldData)` (lines 456-490). -/
def generateBasicNPCs (worldData : Json) : Option Json :=
  match worldTypeKey worldData with
  | none => none
  | some key =>
      let npcs := npcSets key
      some (Json.arr (if npcs.isEmpty then npcSets "fantasy" else npcs))

/-- The three `Math.floor(Math.random() * n)` draws of `generateEnvironment`,
made explicit (each index is taken modulo the list length). -/
structure EnvRand where
  tIdx : Nat
  wIdx : Nat
  sIdx : Nat

/-- Pick `xs[i % xs.length]`, as a uniform draw lands inside the list. -/
def pickIdx (xs : List String) (i : Nat) : String :=
  xs.getD (i % xs.length) ""

/-- The `weatherSets` table of `generateEnvironment` (lines 502-508). -/
def weatherSets (key : String) : List String :=
  if key = "fantasy" then ["clear", "cloudy", "rainy", "foggy", "stormy", "windy"]
  else if key = "sci-fi" then ["clear", "meteor shower", "solar flare", "artificial weather", "atmosphere fluctuation"]
  else if key = "post-apocalyptic" then ["toxic haze", "acid rain", "radiation storm", "dust storm", "nuclear winter"]
  else if key = "steampunk" then ["smoggy", "foggy", "rainy", "clear with airship traffic", "coal dust clouds"]
  else if key = "cyberpunk" then ["acid rain", "smog", "neon-lit darkness", "pollution haze", "artificial weather"]
  else []

/-- `generateEnvironment(worldData)` (lines 497-518) with the random draws
explicit. -/
def generateEnvironment (worldData : Json) (r : EnvRand) : Option Json :=
  match worldTypeKey worldData with
  | none => none
  | some key =>
      let timeOptions := ["dawn", "morning", "midday", "afternoon", "dusk", "evening", "night", "midnight"]
      let ws := weatherSets key
      let weatherOptions := if ws.isEmpty then weatherSets "fantasy" else ws
      some (Json.obj
        [("time", Json.str (pickIdx timeOptions r.tIdx)),
         ("weather", Json.str (pickIdx weatherOptions r.wIdx)),
         ("season", Json.str (pickIdx ["spring", "summer", "autumn", "winter"] r.sIdx))])

/-- `enhanceWorldData(worldData)` (lines 389-406): synthesize nearby
locations, NPCs and environment and spread them over the world data. -/
def enhanceWorldData (worldData : Json) (r : EnvRand) : Option Json :=
  match generateNearbyLocations worldData with
  | none => none
  | some nearbyLocations =>
      match generateBasicNPCs worldData with
      | none => none
      | some npcs =>
          match generateEnvironment worldData r with
          | none => none
          | some environment =>
              some (jsonSet (jsonSet (jsonSet worldData
                "nearbyLocations" nearbyLocations) "npcs" npcs) "environment" environment)

/-- `generateWorld(openai, worldType)` (lines 196-224), with the model call
factored out: the response text is an input, the random draws are explicit,
and the surrounding `try`/`catch` returns the plain fallback world when
enhancement throws. `worldType` only shapes the prompt sent to the model,
so it does not influence this part of the pipeline. -/
def generateWorld (r : EnvRand) (worldType : Option String) (responseText : String) : Json :=
  match enhanceWorldData (parseWorldGeneration responseText) r with
  | some enhancedWorld => enhancedWorld
  | none => getFallbackWorld

/-! ## Derived forms and concrete fixtures used by the theorems -/

/-- Overwrite the `lastAction` field. -/
def setLA (s : GameState) (x : Option LastAction) : GameState :=
  { s with lastAction := x }

/-- Erase the wall-clock timestamp recorded in `lastAction`, leaving every
other component of the state intact. -/
def scrubTime (s : GameState) : GameState :=
  { s with lastAction := s.lastAction.map (fun la => { la with timestamp := "" }) }

/-- A small concrete world summary for test states. -/
def sampleWorld : WorldInfo :=
  { name := "Eldoria", wtype := "fantasy", description := "A realm of magic and mystery." }

/-- A small concrete location for test states. -/
def forestEdge : Location :=
  { id := "forest_edge", name := "Forest Edge", description := "A dense, misty forest." }

/-- Build a concrete game state with the given health, experience, level,
status effects and elapsed time. -/
def mkState (h exp : Int) (lvl : Option Int) (eff : Option (List StatusEffect)) (t : Int) :
    GameState :=
  { player :=
      { name := "Adventurer"
        health := h
        inventory := ["torch", "water flask", "map"]
        quests := []
        experience := exp
        level := lvl
        statusEffects := eff }
    world := sampleWorld
    currentLocation := forestEdge
    gameHistory := [{ htype := "narrative", text := "You stand at the forest edge." }]
    discoveredLocations := ["forest_edge"]
    npcRelationships := []
    timeElapsed := t
    lastAction := none
    gameOver := false }

/-- A concrete active status effect with five time units left. -/
def poisonEffect : StatusEffect :=
  { name := "poison", description := "It burns.", duration := 5, effect := Json.obj [] }

/-- Extract the `id` strings of an array of location objects (used to
compare generated location lists). -/
def locIds (j : Json) : List String :=
  match j with
  | Json.arr xs => xs.filterMap (fun x =>
      match getField x "id" with
      | some (Json.str s) => some s
      | _ => none)
  | _ => []

/-- Extract the strings of a JSON string array (used to compare decoded
`addItems` values). -/
def strItems (j : Option Json) : List String :=
  match j with
  | some (Json.arr xs) => xs.filterMap (fun x =>
      match x with
      | Json.str s => some s
      | _ => none)
  | _ => []

/-! ## Step lemmas for the reducer -/

/-- A `foldl` whose step preserves a projection preserves it globally. -/
theorem foldl_pres {α β γ : Type _} (f : β → α → β) (φ : β → γ)
    (hf : ∀ b a, φ (f b a) = φ b) : ∀ (l : List α) (b : β), φ (l.foldl f b) = φ b
  | [], _ => rfl
  | a :: l, b => by
      rw [List.foldl_cons, foldl_pres f φ hf l (f b a), hf]

/-- A `foldl` whose step only appends history entries only appends them. -/
theorem foldl_hx {α : Type _} (f : GameState → α → GameState)
    (hf : ∀ s a, ∃ es, (f s a).gameHistory = s.gameHistory ++ es) :
    ∀ (l : List α) (s : GameState), ∃ es, (l.foldl f s).gameHistory = s.gameHistory ++ es
  | [], s => ⟨[], by simp⟩
  | a :: l, s => by
      obtain ⟨es₁, h₁⟩ := hf s a
      obtain ⟨es₂, h₂⟩ := foldl_hx f hf l (f s a)
      exact ⟨es₁ ++ es₂, by rw [List.foldl_cons, h₂, h₁, List.append_assoc]⟩

/-- A `foldl` whose step commutes with a `lastAction` overwrite commutes
with it globally. -/
theorem foldl_la {α : Type _} (f : GameState → α → GameState) (x : Option LastAction)
    (hf : ∀ s a, f (setLA s x) a = setLA (f s a) x) :
    ∀ (l : List α) (s : GameState), l.foldl f (setLA s x) = setLA (l.foldl f s) x
  | [], _ => rfl
  | a :: l, s => by
      rw [List.foldl_cons, List.foldl_cons, hf s a, foldl_la f x hf l (f s a)]

theorem addItemFold_health (s : GameState) (a : String) :
    (addItemFold s a).player.health = s.player.health := by
  unfold addItemFold; split <;> rfl

theorem addItemFold_gameOver (s : GameState) (a : String) :
    (addItemFold s a).gameOver = s.gameOver := by
  unfold addItemFold; split <;> rfl

theorem addItemFold_disc (s : GameState) (a : String) :
    (addItemFold s a).discoveredLocations = s.discoveredLocations := by
  unfold addItemFold; split <;> rfl

theorem addItemFold_hx (s : GameState) (a : String) :
    ∃ es, (addItemFold s a).gameHistory = s.gameHistory ++ es := by
  unfold addItemFold; split
  · exact ⟨[], by simp⟩
  · exact ⟨_, rfl⟩

theorem addItemFold_la (x : Option LastAction) (s : GameState) (a : String) :
    addItemFold (setLA s x) a = setLA (addItemFold s a) x := by
  unfold addItemFold setLA; dsimp only; split <;> rfl

theorem removeItemFold_health (s : GameState) (a : String) :
    (removeItemFold s a).player.health = s.player.health := by
  unfold removeItemFold; split <;> rfl

theorem removeItemFold_gameOver (s : GameState) (a : String) :
    (removeItemFold s a).gameOver = s.gameOver := by
  unfold removeItemFold; split <;> rfl

theorem removeItemFold_disc (s : GameState) (a : String) :
    (removeItemFold s a).discoveredLocations = s.discoveredLocations := by
  unfold removeItemFold; split <;> rfl

theorem removeItemFold_hx (s : GameState) (a : String) :
    ∃ es, (removeItemFold s a).gameHistory = s.gameHistory ++ es := by
  unfold removeItemFold; split
  · exact ⟨_, rfl⟩
  · exact ⟨[], by simp⟩

theorem removeItemFold_la (x : Option LastAction) (s : GameState) (a : String) :
    removeItemFold (setLA s x) a = setLA (removeItemFold s a) x := by
  unfold removeItemFold setLA; dsimp only; split <;> rfl

theorem addQuestFold_health (s : GameState) (q : Quest) :
    (addQuestFold s q).player.health = s.player.health := by
  unfold addQuestFold; split <;> rfl

theorem addQuestFold_gameOver (s : GameState) (q : Quest) :
    (addQuestFold s q).gameOver = s.gameOver := by
  unfold addQuestFold; split <;> rfl

theorem addQuestFold_disc (s : GameState) (q : Quest) :
    (addQuestFold s q).discoveredLocations = s.discoveredLocations := by
  unfold addQuestFold; split <;> rfl

theorem addQuestFold_hx (s : GameState) (q : Quest) :
    ∃ es, (addQuestFold s q).gameHistory = s.gameHistory ++ es := by
  unfold addQuestFold; split
  · exact ⟨[], by simp⟩
  · exact ⟨_, rfl⟩

theorem addQuestFold_la (x : Option LastAction) (s : GameState) (q : Quest) :
    addQuestFold (setLA s x) q = setLA (addQuestFold s q) x := by
  unfold addQuestFold setLA; dsimp only; split <;> rfl

theorem addEffectFold_health (s : GameState) (e : StatusEffect) :
    (addEffectFold s e).player.health = s.player.health := by
  unfold addEffectFold; split <;> rfl

theorem addEffectFold_gameOver (s : GameState) (e : StatusEffect) :
    (addEffectFold s e).gameOver = s.gameOver := by
  unfold addEffectFold; split <;> rfl

theorem addEffectFold_disc (s : GameState) (e : StatusEffect) :
    (addEffectFold s e).discoveredLocations = s.discoveredLocations := by
  unfold addEffectFold; split <;> rfl

theorem addEffectFold_hx (s : GameState) (e : StatusEffect) :
    ∃ es, (addEffectFold s e).gameHistory = s.gameHistory ++ es := by
  unfold addEffectFold; split
  · exact ⟨[], by simp⟩
  · exact ⟨_, rfl⟩

theorem addEffectFold_la (x : Option LastAction) (s : GameState) (e : StatusEffect) :
    addEffectFold (setLA s x) e = setLA (addEffectFold s e) x := by
  unfold addEffectFold setLA; dsimp only; split <;> rfl

theorem applyHealth_health_none {ch : ValidatedChanges} (h : ch.health = none)
    (s : GameState) : applyHealth ch s = s := by
  simp [applyHealth, h]

theorem applyHealth_health {ch : ValidatedChanges} {x : Int} (h : ch.health = some x)
    (s : GameState) : (applyHealth ch s).player.health = x := by
  simp only [applyHealth, h]; split <;> rfl

theorem applyHealth_dead {ch : ValidatedChanges} {x : Int} (h : ch.health = some x)
    (hx : x ≤ 0) (s : GameState) : (applyHealth ch s).gameOver = true := by
  simp only [applyHealth, h]
  rw [if_pos hx]

theorem applyHealth_go_mono (ch : ValidatedChanges) (s : GameState)
    (h : s.gameOver = true) : (applyHealth ch s).gameOver = true := by
  unfold applyHealth
  cases ch.health with
  | none => exact h
  | some x => dsimp only; split <;> simpa

theorem applyHealth_disc (ch : ValidatedChanges) (s : GameState) :
    (applyHealth ch s).discoveredLocations = s.discoveredLocations := by
  unfold applyHealth
  cases ch.health with
  | none => rfl
  | some v => dsimp only; split <;> rfl

theorem applyHealth_hx (ch : ValidatedChanges) (s : GameState) :
    ∃ es, (applyHealth ch s).gameHistory = s.gameHistory ++ es := by
  unfold applyHealth
  cases ch.health with
  | none => exact ⟨[], by simp⟩
  | some x =>
      dsimp only; split
      · exact ⟨_, rfl⟩
      · exact ⟨[], by simp⟩

theorem applyHealth_la (ch : ValidatedChanges) (x : Option LastAction) (s : GameState) :
    applyHealth ch (setLA s x) = setLA (applyHealth ch s) x := by
  unfold applyHealth setLA
  cases ch.health with
  | none => rfl
  | some v => dsimp only; split <;> rfl

theorem applyAddItems_health (ch : ValidatedChanges) (s : GameState) :
    (applyAddItems ch s).player.health = s.player.health := by
  unfold applyAddItems
  cases ch.addItems with
  | none => rfl
  | some items => exact foldl_pres addItemFold (fun st => st.player.health) addItemFold_health items s

theorem applyAddItems_gameOver (ch : ValidatedChanges) (s : GameState) :
    (applyAddItems ch s).gameOver = s.gameOver := by
  unfold applyAddItems
  cases ch.addItems with
  | none => rfl
  | some items => exact foldl_pres addItemFold (fun st => st.gameOver) addItemFold_gameOver items s

theorem applyAddItems_disc (ch : ValidatedChanges) (s : GameState) :
    (applyAddItems ch s).discoveredLocations = s.discoveredLocations := by
  unfold applyAddItems
  cases ch.addItems with
  | none => rfl
  | some items =>
      exact foldl_pres addItemFold (fun st => st.discoveredLocations) addItemFold_disc items s

theorem applyAddItems_hx (ch : ValidatedChanges) (s : GameState) :
    ∃ es, (applyAddItems ch s).gameHistory = s.gameHistory ++ es := by
  unfold applyAddItems
  cases ch.addItems with
  | none => exact ⟨[], by simp⟩
  | some items => exact foldl_hx addItemFold addItemFold_hx items s

theorem applyAddItems_la (ch : ValidatedChanges) (x : Option LastAction) (s : GameState) :
    applyAddItems ch (setLA s x) = setLA (applyAddItems ch s) x := by
  unfold applyAddItems
  cases ch.addItems with
  | none => rfl
  | some items => exact foldl_la addItemFold x (addItemFold_la x) items s

theorem applyRemoveItems_health (ch : ValidatedChanges) (s : GameState) :
    (applyRemoveItems ch s).player.health = s.player.health := by
  unfold applyRemoveItems
  cases ch.removeItems with
  | none => rfl
  | some items =>
      exact foldl_pres removeItemFold (fun st => st.player.health) removeItemFold_health items s

theorem applyRemoveItems_gameOver (ch : ValidatedChanges) (s : GameState) :
    (applyRemoveItems ch s).gameOver = s.gameOver := by
  unfold applyRemoveItems
  cases ch.removeItems with
  | none => rfl
  | some items =>
      exact foldl_pres removeItemFold (fun st => st.gameOver) removeItemFold_gameOver items s

theorem applyRemoveItems_disc (ch : ValidatedChanges) (s : GameState) :
    (applyRemoveItems ch s).discoveredLocations = s.discoveredLocations := by
  unfold applyRemoveItems
  cases ch.removeItems with
  | none => rfl
  | some items =>
      exact foldl_pres removeItemFold (fun st => st.discoveredLocations) removeItemFold_disc items s

theorem applyRemoveItems_hx (ch : ValidatedChanges) (s : GameState) :
    ∃ es, (applyRemoveItems ch s).gameHistory = s.gameHistory ++ es := by
  unfold applyRemoveItems
  cases ch.removeItems with
  | none => exact ⟨[], by simp⟩
  | some items => exact foldl_hx removeItemFold removeItemFold_hx items s

theorem applyRemoveItems_la (ch : ValidatedChanges) (x : Option LastAction) (s : GameState) :
    applyRemoveItems ch (setLA s x) = setLA (applyRemoveItems ch s) x := by
  unfold applyRemoveItems
  cases ch.removeItems with
  | none => rfl
  | some items => exact foldl_la removeItemFold x (removeItemFold_la x) items s

theorem applyLocation_health (ch : ValidatedChanges) (s : GameState) :
    (applyLocation ch s).player.health = s.player.health := by
  unfold applyLocation
  cases ch.newLocation with
  | none => rfl
  | some loc => dsimp only; split <;> rfl

theorem applyLocation_gameOver (ch : ValidatedChanges) (s : GameState) :
    (applyLocation ch s).gameOver = s.gameOver := by
  unfold applyLocation
  cases ch.newLocation with
  | none => rfl
  | some loc => dsimp only; split <;> rfl

theorem applyLocation_disc (ch : ValidatedChanges) (s : GameState) :
    ∃ tail, (applyLocation ch s).discoveredLocations = s.discoveredLocations ++ tail := by
  unfold applyLocation
  cases ch.newLocation with
  | none => exact ⟨[], by simp⟩
  | some loc =>
      dsimp only; split
      · exact ⟨_, rfl⟩
      · exact ⟨[], by simp⟩

theorem applyLocation_hx (ch : ValidatedChanges) (s : GameState) :
    ∃ es, (applyLocation ch s).gameHistory = s.gameHistory ++ es := by
  unfold applyLocation
  cases ch.newLocation with
  | none => exact ⟨[], by simp⟩
  | some loc =>
      dsimp only; split
      · exact ⟨_, rfl⟩
      · exact ⟨[], by simp⟩

theorem applyLocation_la (ch : ValidatedChanges) (x : Option LastAction) (s : GameState) :
    applyLocation ch (setLA s x) = setLA (applyLocation ch s) x := by
  unfold applyLocation setLA
  cases ch.newLocation with
  | none => rfl
  | some loc => dsimp only; split <;> rfl

/-- Re-applying an already discovered location only replaces
`currentLocation`: no append, no experience, no log entry. -/
theorem applyLocation_seen {ch : ValidatedChanges} {loc : Location}
    (h : ch.newLocation = some loc) (s : GameState)
    (hm : s.discoveredLocations.contains loc.id = true) :
    applyLocation ch s = { s with currentLocation := loc } := by
  simp only [applyLocation, h]
  rw [if_neg]
  simp only [Bool.and_eq_true, not_and, Bool.not_eq_true']
  intro _
  rw [hm]
  simp

theorem applyQuests_health (ch : ValidatedChanges) (s : GameState) :
    (applyQuests ch s).player.health = s.player.health := by
  unfold applyQuests
  cases ch.addQuests with
  | none => rfl
  | some qs => exact foldl_pres addQuestFold (fun st => st.player.health) addQuestFold_health qs s

theorem applyQuests_gameOver (ch : ValidatedChanges) (s : GameState) :
    (applyQuests ch s).gameOver = s.gameOver := by
  unfold applyQuests
  cases ch.addQuests with
  | none => rfl
  | some qs => exact foldl_pres addQuestFold (fun st => st.gameOver) addQuestFold_gameOver qs s

theorem applyQuests_disc (ch : ValidatedChanges) (s : GameState) :
    (applyQuests ch s).discoveredLocations = s.discoveredLocations := by
  unfold applyQuests
  cases ch.addQuests with
  | none => rfl
  | some qs => exact foldl_pres addQuestFold (fun st => st.discoveredLocations) addQuestFold_disc qs s

theorem applyQuests_hx (ch : ValidatedChanges) (s : GameState) :
    ∃ es, (applyQuests ch s).gameHistory = s.gameHistory ++ es := by
  unfold applyQuests
  cases ch.addQuests with
  | none => exact ⟨[], by simp⟩
  | some qs => exact foldl_hx addQuestFold addQuestFold_hx qs s

theorem applyQuests_la (ch : ValidatedChanges) (x : Option LastAction) (s : GameState) :
    applyQuests ch (setLA s x) = setLA (applyQuests ch s) x := by
  unfold applyQuests
  cases ch.addQuests with
  | none => rfl
  | some qs => exact foldl_la addQuestFold x (addQuestFold_la x) qs s

theorem applyNpc_health (ch : ValidatedChanges) (s : GameState) :
    (applyNpc ch s).player.health = s.player.health := by
  unfold applyNpc; cases ch.npcRelationships <;> rfl

theorem applyNpc_gameOver (ch : ValidatedChanges) (s : GameState) :
    (applyNpc ch s).gameOver = s.gameOver := by
  unfold applyNpc; cases ch.npcRelationships <;> rfl

theorem applyNpc_disc (ch : ValidatedChanges) (s : GameState) :
    (applyNpc ch s).discoveredLocations = s.discoveredLocations := by
  unfold applyNpc; cases ch.npcRelationships <;> rfl

theorem applyNpc_hx (ch : ValidatedChanges) (s : GameState) :
    ∃ es, (applyNpc ch s).gameHistory = s.gameHistory ++ es := by
  refine ⟨[], ?_⟩
  unfold applyNpc; cases ch.npcRelationships <;> simp

theorem applyNpc_la (ch : ValidatedChanges) (x : Option LastAction) (s : GameState) :
    applyNpc ch (setLA s x) = setLA (applyNpc ch s) x := by
  unfold applyNpc setLA; cases ch.npcRelationships <;> rfl

theorem applyStatusEffects_health (ch : ValidatedChanges) (s : GameState) :
    (applyStatusEffects ch s).player.health = s.player.health := by
  unfold applyStatusEffects
  cases ch.statusEffects with
  | none => rfl
  | some effs =>
      cases s.player.statusEffects <;>
        exact foldl_pres addEffectFold (fun st => st.player.health) addEffectFold_health effs _

theorem applyStatusEffects_gameOver (ch : ValidatedChanges) (s : GameState) :
    (applyStatusEffects ch s).gameOver = s.gameOver := by
  unfold applyStatusEffects
  cases ch.statusEffects with
  | none => rfl
  | some effs =>
      cases s.player.statusEffects <;>
        exact foldl_pres addEffectFold (fun st => st.gameOver) addEffectFold_gameOver effs _

theorem applyStatusEffects_disc (ch : ValidatedChanges) (s : GameState) :
    (applyStatusEffects ch s).discoveredLocations = s.discoveredLocations := by
  unfold applyStatusEffects
  cases ch.statusEffects with
  | none => rfl
  | some effs =>
      cases s.player.statusEffects <;>
        exact foldl_pres addEffectFold (fun st => st.discoveredLocations) addEffectFold_disc effs _

theorem applyStatusEffects_hx (ch : ValidatedChanges) (s : GameState) :
    ∃ es, (applyStatusEffects ch s).gameHistory = s.gameHistory ++ es := by
  unfold applyStatusEffects
  cases ch.statusEffects with
  | none => exact ⟨[], by simp⟩
  | some effs =>
      cases s.player.statusEffects <;>
        exact foldl_hx addEffectFold addEffectFold_hx effs _

theorem applyStatusEffects_la (ch : ValidatedChanges) (x : Option LastAction) (s : GameState) :
    applyStatusEffects ch (setLA s x) = setLA (applyStatusEffects ch s) x := by
  unfold applyStatusEffects setLA
  cases ch.statusEffects with
  | none => rfl
  | some effs =>
      cases s.player.statusEffects with
      | none =>
          exact foldl_la addEffectFold x (addEffectFold_la x) effs
            { s with player := { s.player with statusEffects := some [] } }
      | some cur =>
          exact foldl_la addEffectFold x (addEffectFold_la x) effs s

theorem applyExperience_health (ch : ValidatedChanges) (s : GameState) :
    (applyExperience ch s).player.health = s.player.health := by
  unfold applyExperience
  cases ch.experience with
  | none => rfl
  | some e => dsimp only; split <;> try split
              all_goals rfl

theorem applyExperience_gameOver (ch : ValidatedChanges) (s : GameState) :
    (applyExperience ch s).gameOver = s.gameOver := by
  unfold applyExperience
  cases ch.experience with
  | none => rfl
  | some e => dsimp only; split <;> try split
              all_goals rfl

theorem applyExperience_disc (ch : ValidatedChanges) (s : GameState) :
    (applyExperience ch s).discoveredLocations = s.discoveredLocations := by
  unfold applyExperience
  cases ch.experience with
  | none => rfl
  | some e => dsimp only; split <;> try split
              all_goals rfl

theorem applyExperience_hx (ch : ValidatedChanges) (s : GameState) :
    ∃ es, (applyExperience ch s).gameHistory = s.gameHistory ++ es := by
  unfold applyExperience
  cases ch.experience with
  | none => exact ⟨[], by simp⟩
  | some e =>
      dsimp only
      split
      · split
        · exact ⟨_, rfl⟩
        · exact ⟨[], by simp⟩
      · exact ⟨[], by simp⟩

theorem applyExperience_la (ch : ValidatedChanges) (x : Option LastAction) (s : GameState) :
    applyExperience ch (setLA s x) = setLA (applyExperience ch s) x := by
  unfold applyExperience setLA
  cases ch.experience with
  | none => rfl
  | some e => dsimp only; split <;> try split
              all_goals rfl

/-- Step 10 in closed form: only `player.statusEffects` changes, by
`tickList`. -/
theorem tickStatusEffects_eq (s : GameState) : tickStatusEffects s =
    { s with player :=
        { s.player with statusEffects := Option.map tickList s.player.statusEffects } } := by
  unfold tickStatusEffects
  split
  next h =>
    rw [h]
    conv_rhs =>
      rw [show (Option.map tickList none : Option (List StatusEffect)) = none from rfl, ← h]
  next effs h =>
    rw [h]
    split
    next => rfl
    next hlen =>
      have heff : effs = [] := by
        cases effs with
        | nil => rfl
        | cons a l => exact absurd (by simp) hlen
      subst heff
      conv_rhs =>
        rw [show Option.map tickList (some ([] : List StatusEffect)) =
              some ([] : List StatusEffect) from rfl, ← h]

theorem tick_la (x : Option LastAction) (s : GameState) :
    tickStatusEffects (setLA s x) = setLA (tickStatusEffects s) x := by
  rw [tickStatusEffects_eq, tickStatusEffects_eq]; rfl

/-- Step 11 in closed form. -/
theorem applyTime_eq (s : GameState) : applyTime s =
    if (s.timeElapsed + 1) % 24 = 0 then
      { s with
        timeElapsed := s.timeElapsed + 1
        player := { s.player with health := min 100 (s.player.health + 10) }
        gameHistory := s.gameHistory ++
          [{ htype := "system",
             text := "Day " ++ toString (Int.fdiv (s.timeElapsed + 1) 24) ++
               " begins. You feel refreshed." }] }
    else { s with timeElapsed := s.timeElapsed + 1 } := rfl

theorem applyTime_time (s : GameState) : (applyTime s).timeElapsed = s.timeElapsed + 1 := by
  rw [applyTime_eq]; split <;> rfl

theorem applyTime_exp (s : GameState) :
    (applyTime s).player.experience = s.player.experience := by
  rw [applyTime_eq]; split <;> rfl

theorem applyTime_level (s : GameState) : (applyTime s).player.level = s.player.level := by
  rw [applyTime_eq]; split <;> rfl

theorem applyTime_gameOver (s : GameState) : (applyTime s).gameOver = s.gameOver := by
  rw [applyTime_eq]; split <;> rfl

theorem applyTime_disc (s : GameState) :
    (applyTime s).discoveredLocations = s.discoveredLocations := by
  rw [applyTime_eq]; split <;> rfl

theorem applyTime_hx (s : GameState) :
    ∃ es, (applyTime s).gameHistory = s.gameHistory ++ es := by
  rw [applyTime_eq]; split
  · exact ⟨_, rfl⟩
  · exact ⟨[], by simp⟩

theorem applyTime_la (x : Option LastAction) (s : GameState) :
    applyTime (setLA s x) = setLA (applyTime s) x := by
  rw [applyTime_eq, applyTime_eq]
  simp only [setLA]
  split <;> rfl

theorem applyTime_health_bounds (s : GameState) (hlo : 0 ≤ s.player.health)
    (hhi : s.player.health ≤ 100) :
    0 ≤ (applyTime s).player.health ∧ (applyTime s).player.health ≤ 100 := by
  rw [applyTime_eq]; split
  · dsimp only
    cases le_total 100 (s.player.health + 10) with
    | inl h => rw [min_eq_left h]; omega
    | inr h => rw [min_eq_right h]; omega
  · exact ⟨hlo, hhi⟩

theorem applyTime_noday (s : GameState) (h : ¬ (s.timeElapsed + 1) % 24 = 0) :
    applyTime s = { s with timeElapsed := s.timeElapsed + 1 } := by
  rw [applyTime_eq, if_neg h]

/-- Step 12 does nothing when the accumulated experience is below the
current threshold. -/
theorem applyLevel_skip (s : GameState)
    (h : s.player.experience < 100 * jsOrInt s.player.level 1) : applyLevel s = s := by
  unfold applyLevel
  rw [if_neg]
  split <;> omega

/-- Step 12 fires exactly once when the accumulated experience reaches the
threshold: consume it, bump the level, heal to 100. -/
theorem applyLevel_fire (s : GameState) (hne : s.player.experience ≠ 0)
    (hge : 100 * jsOrInt s.player.level 1 ≤ s.player.experience) :
    applyLevel s =
      { s with
        player := { s.player with
          level := some (jsOrInt s.player.level 1 + 1)
          experience := s.player.experience - 100 * jsOrInt s.player.level 1
          health := 100 }
        gameHistory := s.gameHistory ++
          [{ htype := "system",
             text := "Level Up! You are now level " ++
               toString (jsOrInt s.player.level 1 + 1) ++ "." }] } := by
  unfold applyLevel
  rw [if_pos]
  rw [if_neg hne]
  exact hge

theorem applyLevel_health (s : GameState) :
    (applyLevel s).player.health = 100 ∨ (applyLevel s).player.health = s.player.health := by
  unfold applyLevel
  dsimp only
  split <;> split <;> first
    | exact Or.inl rfl
    | exact Or.inr rfl

theorem applyLevel_gameOver (s : GameState) : (applyLevel s).gameOver = s.gameOver := by
  unfold applyLevel; dsimp only; split <;> split <;> rfl

theorem applyLevel_disc (s : GameState) :
    (applyLevel s).discoveredLocations = s.discoveredLocations := by
  unfold applyLevel; dsimp only; split <;> split <;> rfl

theorem applyLevel_hx (s : GameState) :
    ∃ es, (applyLevel s).gameHistory = s.gameHistory ++ es := by
  unfold applyLevel
  dsimp only
  split <;> split <;> first
    | exact ⟨_, rfl⟩
    | exact ⟨[], by simp⟩

theorem applyLevel_la (x : Option LastAction) (s : GameState) :
    applyLevel (setLA s x) = setLA (applyLevel s) x := by
  unfold applyLevel setLA; dsimp only; split <;> split <;> rfl

theorem truncateHistory_gameHistory (s : GameState) :
    (truncateHistory s).gameHistory = s.gameHistory.drop (s.gameHistory.length - 50) := by
  unfold truncateHistory; split
  next => rfl
  next h =>
    have h0 : s.gameHistory.length - 50 = 0 := by omega
    rw [h0, List.drop_zero]

theorem truncateHistory_le50 (s : GameState) :
    (truncateHistory s).gameHistory.length ≤ 50 := by
  unfold truncateHistory; split
  next h => simp only [List.length_drop]; omega
  next h => omega

theorem truncateHistory_player (s : GameState) : (truncateHistory s).player = s.player := by
  unfold truncateHistory; split <;> rfl

theorem truncateHistory_gameOver (s : GameState) :
    (truncateHistory s).gameOver = s.gameOver := by
  unfold truncateHistory; split <;> rfl

theorem truncateHistory_disc (s : GameState) :
    (truncateHistory s).discoveredLocations = s.discoveredLocations := by
  unfold truncateHistory; split <;> rfl

theorem truncateHistory_time (s : GameState) :
    (truncateHistory s).timeElapsed = s.timeElapsed := by
  unfold truncateHistory; split <;> rfl

theorem truncateHistory_npc (s : GameState) :
    (truncateHistory s).npcRelationships = s.npcRelationships := by
  unfold truncateHistory; split <;> rfl

theorem truncateHistory_world (s : GameState) : (truncateHistory s).world = s.world := by
  unfold truncateHistory; split <;> rfl

theorem truncateHistory_curLoc (s : GameState) :
    (truncateHistory s).currentLocation = s.currentLocation := by
  unfold truncateHistory; split <;> rfl

theorem truncateHistory_la (x : Option LastAction) (s : GameState) :
    truncateHistory (setLA s x) = setLA (truncateHistory s) x := by
  unfold truncateHistory setLA; dsimp only; split <;> rfl

theorem truncateHistory_lastAction (s : GameState) :
    (truncateHistory s).lastAction = s.lastAction := by
  unfold truncateHistory; split <;> rfl

theorem tick_health (s : GameState) :
    (tickStatusEffects s).player.health = s.player.health := by
  rw [tickStatusEffects_eq]

theorem tick_gameOver (s : GameState) : (tickStatusEffects s).gameOver = s.gameOver := by
  rw [tickStatusEffects_eq]

theorem tick_disc (s : GameState) :
    (tickStatusEffects s).discoveredLocations = s.discoveredLocations := by
  rw [tickStatusEffects_eq]

theorem tick_hist (s : GameState) :
    (tickStatusEffects s).gameHistory = s.gameHistory := by
  rw [tickStatusEffects_eq]

/-- Steps 2-13 commute with a `lastAction` overwrite: nothing after step 1
reads or writes `lastAction`. -/
theorem reduceChanges_la (ch : ValidatedChanges) (x : Option LastAction) (s : GameState) :
    reduceChanges ch (setLA s x) = setLA (reduceChanges ch s) x := by
  unfold reduceChanges
  rw [applyHealth_la, applyAddItems_la, applyRemoveItems_la, applyLocation_la, applyQuests_la,
    applyNpc_la, applyStatusEffects_la, applyExperience_la, tick_la, applyTime_la, applyLevel_la,
    truncateHistory_la]

/-- Steps 2-13 leave `lastAction` unchanged. -/
theorem reduceChanges_lastAction (ch : ValidatedChanges) (s : GameState) :
    (reduceChanges ch s).lastAction = s.lastAction := by
  have h := reduceChanges_la ch s.lastAction s
  have h2 : setLA s s.lastAction = s := rfl
  rw [h2] at h
  conv_lhs => rw [h]
  rfl

/-- Health stays in `[0,100]` through steps 2-13 whenever the applied
health value (if any) is already clamped. -/
theorem reduceChanges_health_bounds (ch : ValidatedChanges) (s : GameState)
    (hch : ∀ x, ch.health = some x → 0 ≤ x ∧ x ≤ 100)
    (hlo : 0 ≤ s.player.health) (hhi : s.player.health ≤ 100) :
    0 ≤ (reduceChanges ch s).player.health ∧ (reduceChanges ch s).player.health ≤ 100 := by
  unfold reduceChanges
  set s1 := applyHealth ch s with hs1
  have hb1 : 0 ≤ s1.player.health ∧ s1.player.health ≤ 100 := by
    cases hh : ch.health with
    | none => rw [hs1, applyHealth_health_none hh]; exact ⟨hlo, hhi⟩
    | some x => rw [hs1, applyHealth_health hh]; exact hch x hh
  set s8 := applyExperience ch (applyStatusEffects ch (applyNpc ch (applyQuests ch
    (applyLocation ch (applyRemoveItems ch (applyAddItems ch s1)))))) with hs8
  have hb8 : s8.player.health = s1.player.health := by
    rw [hs8, applyExperience_health, applyStatusEffects_health, applyNpc_health,
      applyQuests_health, applyLocation_health, applyRemoveItems_health, applyAddItems_health]
  set s9 := tickStatusEffects s8 with hs9
  have hb9 : s9.player.health = s1.player.health := by rw [hs9, tick_health, hb8]
  have hb10 := applyTime_health_bounds s9 (by omega) (by omega)
  rcases applyLevel_health (applyTime s9) with h11 | h11 <;>
    rw [truncateHistory_player, h11] <;> omega

/-- An applied health value ≤ 0 forces `gameOver` through the whole of
steps 2-13. -/
theorem reduceChanges_go_dead (ch : ValidatedChanges) {x : Int} (h : ch.health = some x)
    (hx : x ≤ 0) (s : GameState) : (reduceChanges ch s).gameOver = true := by
  unfold reduceChanges
  rw [truncateHistory_gameOver, applyLevel_gameOver, applyTime_gameOver, tick_gameOver,
    applyExperience_gameOver, applyStatusEffects_gameOver, applyNpc_gameOver,
    applyQuests_gameOver, applyLocation_gameOver, applyRemoveItems_gameOver,
    applyAddItems_gameOver]
  exact applyHealth_dead h hx s

/-- `gameOver` is never cleared by steps 2-13. -/
theorem reduceChanges_go_mono (ch : ValidatedChanges) (s : GameState)
    (h : s.gameOver = true) : (reduceChanges ch s).gameOver = true := by
  unfold reduceChanges
  rw [truncateHistory_gameOver, applyLevel_gameOver, applyTime_gameOver, tick_gameOver,
    applyExperience_gameOver, applyStatusEffects_gameOver, applyNpc_gameOver,
    applyQuests_gameOver, applyLocation_gameOver, applyRemoveItems_gameOver,
    applyAddItems_gameOver]
  exact applyHealth_go_mono ch s h

/-- The history after steps 2-13 is the 50-entry suffix of the input
history plus the entries the steps appended, in order. -/
theorem reduceChanges_hist (ch : ValidatedChanges) (s : GameState) :
    ∃ es, (reduceChanges ch s).gameHistory =
      (s.gameHistory ++ es).drop ((s.gameHistory ++ es).length - 50) := by
  unfold reduceChanges
  set s1 := applyHealth ch s with hs1
  set s2 := applyAddItems ch s1 with hs2
  set s3 := applyRemoveItems ch s2 with hs3
  set s4 := applyLocation ch s3 with hs4
  set s5 := applyQuests ch s4 with hs5
  set s6 := applyNpc ch s5 with hs6
  set s7 := applyStatusEffects ch s6 with hs7
  set s8 := applyExperience ch s7 with hs8
  set s9 := tickStatusEffects s8 with hs9
  set s10 := applyTime s9 with hs10
  set s11 := applyLevel s10 with hs11
  obtain ⟨e1, h1⟩ := applyHealth_hx ch s
  obtain ⟨e2, h2⟩ := applyAddItems_hx ch s1
  obtain ⟨e3, h3⟩ := applyRemoveItems_hx ch s2
  obtain ⟨e4, h4⟩ := applyLocation_hx ch s3
  obtain ⟨e5, h5⟩ := applyQuests_hx ch s4
  obtain ⟨e6, h6⟩ := applyNpc_hx ch s5
  obtain ⟨e7, h7⟩ := applyStatusEffects_hx ch s6
  obtain ⟨e8, h8⟩ := applyExperience_hx ch s7
  obtain ⟨e10, h10⟩ := applyTime_hx s9
  obtain ⟨e11, h11⟩ := applyLevel_hx s10
  refine ⟨e1 ++ (e2 ++ (e3 ++ (e4 ++ (e5 ++ (e6 ++ (e7 ++ (e8 ++ (e10 ++ e11)))))))), ?_⟩
  have hchain : s11.gameHistory = s.gameHistory ++
      (e1 ++ (e2 ++ (e3 ++ (e4 ++ (e5 ++ (e6 ++ (e7 ++ (e8 ++ (e10 ++ e11))))))))) := by
    rw [hs11, h11, hs10, h10, hs9, tick_hist, hs8, h8, hs7, h7, hs6, h6, hs5, h5, hs4, h4,
      hs3, h3, hs2, h2, hs1, h1]
    simp [List.append_assoc]
  rw [truncateHistory_gameHistory, hchain]

/-- `discoveredLocations` after steps 2-13 extends the input list. -/
theorem reduceChanges_disc (ch : ValidatedChanges) (s : GameState) :
    ∃ tail, (reduceChanges ch s).discoveredLocations = s.discoveredLocations ++ tail := by
  unfold reduceChanges
  obtain ⟨tail, h4⟩ := applyLocation_disc ch (applyRemoveItems ch (applyAddItems ch (applyHealth ch s)))
  refine ⟨tail, ?_⟩
  rw [truncateHistory_disc, applyLevel_disc, applyTime_disc, tick_disc, applyExperience_disc,
    applyStatusEffects_disc, applyNpc_disc, applyQuests_disc, h4, applyRemoveItems_disc,
    applyAddItems_disc, applyHealth_disc]

/-- A `newLocation` whose id is already discovered leaves
`discoveredLocations` unchanged through steps 2-13. -/
theorem reduceChanges_disc_seen (ch : ValidatedChanges) {loc : Location}
    (h : ch.newLocation = some loc) (s : GameState)
    (hm : s.discoveredLocations.contains loc.id = true) :
    (reduceChanges ch s).discoveredLocations = s.discoveredLocations := by
  unfold reduceChanges
  set s3 := applyRemoveItems ch (applyAddItems ch (applyHealth ch s)) with hs3
  have hd3 : s3.discoveredLocations = s.discoveredLocations := by
    rw [hs3, applyRemoveItems_disc, applyAddItems_disc, applyHealth_disc]
  have hm3 : s3.discoveredLocations.contains loc.id = true := by rw [hd3]; exact hm
  rw [truncateHistory_disc, applyLevel_disc, applyTime_disc, tick_disc, applyExperience_disc,
    applyStatusEffects_disc, applyNpc_disc, applyQuests_disc, applyLocation_seen h s3 hm3]
  exact hd3

/-! ## Claim theorems -/

/-- A health value kept by the field validation is already clamped to
`[0,100]`. -/
theorem validatedFields_health_bounds (chg : Json) (s : GameState) {x : Int}
    (h : (validatedFields chg s).health = some x) : 0 ≤ x ∧ x ≤ 100 := by
  have hh : (validatedFields chg s).health =
      (match getField chg "health" with
       | none => none
       | some hv =>
           match jsToNumber hv with
           | some n => some (max 0 (min 100 n))
           | none => none) := rfl
  rw [hh] at h
  cases hg : getField chg "health" with
  | none => simp [hg] at h
  | some hv =>
      simp only [hg] at h
      cases hn : jsToNumber hv with
      | none => simp [hn] at h
      | some n =>
          simp only [hn] at h
          obtain rfl := (Option.some.inj h).symm
          exact ⟨le_max_left 0 _, max_le (by norm_num) (min_le_left 100 _)⟩

/-- A non-throwing validation returns exactly the field record. -/
theorem validate_some_eq (chg : Json) (s : GameState) {v : ValidatedChanges}
    (hv : validateStateChanges chg s = some v) : v = validatedFields chg s := by
  unfold validateStateChanges at hv
  cases chg
  case null => exact absurd hv (by simp)
  all_goals
    dsimp only at hv
    split at hv
    · exact absurd hv (by simp)
    · exact (Option.some.inj hv).symm

/-- A health value kept by the validator is already clamped to `[0,100]`. -/
theorem validate_health_bounds (chg : Json) (s : GameState) {v : ValidatedChanges} {x : Int}
    (hv : validateStateChanges chg s = some v) (h : v.health = some x) : 0 ≤ x ∧ x ≤ 100 := by
  rw [validate_some_eq chg s hv] at h
  exact validatedFields_health_bounds chg s h

/-- A health value surviving into the applied change set is clamped (the
catch path applies no health at all). -/
theorem appliedChanges_health_bounds (chg : Json) (s : GameState) {x : Int}
    (h : (appliedChanges chg s).health = some x) : 0 ≤ x ∧ x ≤ 100 := by
  unfold appliedChanges at h
  cases hv : validateStateChanges chg s with
  | none => rw [hv] at h; exact absurd h (by simp [noChanges])
  | some v =>
      rw [hv] at h
      exact validate_health_bounds chg s hv h

/-- C1: for every current state with health in `[0,100]` and every decoded
change set, running `validateStateChanges` followed by `updateGameState`
(with the `catch` substituting the empty change set when validation
throws, as `parseGameResponse` does) keeps `player.health` in `[0,100]`;
whenever the applied health value is `≤ 0` the resulting state has
`gameOver = true`; and once `gameOver` is true, no turn of the reducer
ever produces a state with `gameOver = false` again (in particular one
applying a positive health change). -/
theorem C1_health_clamp_gameover_permanent (now action narrative : String) (s : GameState)
    (chg : Json) :
    (0 ≤ s.player.health → s.player.health ≤ 100 →
      0 ≤ (updateGameState now s action narrative (appliedChanges chg s)).player.health ∧
        (updateGameState now s action narrative (appliedChanges chg s)).player.health ≤ 100)
    ∧ (∀ x, (appliedChanges chg s).health = some x → x ≤ 0 →
        (updateGameState now s action narrative (appliedChanges chg s)).gameOver = true)
    ∧ (s.gameOver = true →
        (updateGameState now s action narrative (appliedChanges chg s)).gameOver = true) := by
  refine ⟨?_, ?_, ?_⟩
  · intro hlo hhi
    exact reduceChanges_health_bounds (appliedChanges chg s)
      (applyAction now action narrative s)
      (fun x hx => appliedChanges_health_bounds chg s hx) hlo hhi
  · intro x hx hx0
    exact reduceChanges_go_dead (appliedChanges chg s) hx hx0
      (applyAction now action narrative s)
  · intro hgo
    exact reduceChanges_go_mono (appliedChanges chg s)
      (applyAction now action narrative s) hgo

/-- C1 witness: a concrete `health: -5` change is clamped to `0`, the
resulting health lies in `[0,100]`, the state is game over, and a
subsequent positive-health turn on a game-over state stays game over. -/
theorem C1_witness :
    (0 ≤ (updateGameState "T" (mkState 50 0 (some 1) (some []) 0) "fight" "n"
        (appliedChanges (Json.obj [("health", Json.num (-5))])
          (mkState 50 0 (some 1) (some []) 0))).player.health
      ∧ (updateGameState "T" (mkState 50 0 (some 1) (some []) 0) "fight" "n"
          (appliedChanges (Json.obj [("health", Json.num (-5))])
            (mkState 50 0 (some 1) (some []) 0))).player.health ≤ 100)
    ∧ (updateGameState "T" (mkState 50 0 (some 1) (some []) 0) "fight" "n"
        (appliedChanges (Json.obj [("health", Json.num (-5))])
          (mkState 50 0 (some 1) (some []) 0))).gameOver = true
    ∧ (updateGameState "T" { mkState 50 0 (some 1) (some []) 0 with gameOver := true }
        "rest" "n"
        (appliedChanges (Json.obj [("health", Json.num 90)])
          { mkState 50 0 (some 1) (some []) 0 with gameOver := true })).gameOver = true :=
  ⟨(C1_health_clamp_gameover_permanent "T" "fight" "n" (mkState 50 0 (some 1) (some []) 0)
      (Json.obj [("health", Json.num (-5))])).1 (by decide) (by decide),
   (C1_health_clamp_gameover_permanent "T" "fight" "n" (mkState 50 0 (some 1) (some []) 0)
      (Json.obj [("health", Json.num (-5))])).2.1 0 (by decide) (by decide),
   (C1_health_clamp_gameover_permanent "T" "rest" "n"
      { mkState 50 0 (some 1) (some []) 0 with gameOver := true }
      (Json.obj [("health", Json.num 90)])).2.2 (by decide)⟩

theorem tick_exp (s : GameState) :
    (tickStatusEffects s).player.experience = s.player.experience := by
  rw [tickStatusEffects_eq]

theorem tick_level (s : GameState) :
    (tickStatusEffects s).player.level = s.player.level := by
  rw [tickStatusEffects_eq]

/-- C2 counterexample: from `level = 1, experience = 0`, a single validated
`+300` experience award yields `level = 2, experience = 200` — the
accumulated experience still meets the next threshold (`200 ≥ 100·2`), so
the claimed within-turn `while` loop (which would reach level 3 with
experience 0) does not happen: the source applies one `if` per turn. -/
theorem C2_counterexample :
    (updateGameState "T" (mkState 50 0 (some 1) (some []) 0) "train" "n"
      { experience := some 300 }).player.level = some 2
    ∧ (updateGameState "T" (mkState 50 0 (some 1) (some []) 0) "train" "n"
        { experience := some 300 }).player.experience = 200
    ∧ ¬ ((updateGameState "T" (mkState 50 0 (some 1) (some []) 0) "train" "n"
          { experience := some 300 }).player.experience <
        100 * jsOrInt (updateGameState "T" (mkState 50 0 (some 1) (some []) 0) "train" "n"
          { experience := some 300 }).player.level 1) := by
  refine ⟨by decide, by decide, by decide⟩

/-- C2 amended: the reducer's leveling step runs at most once per turn.
When a positive validated experience award pushes the accumulated
experience to at least `100 * currentLevel`, exactly one level-up happens:
the threshold is consumed, any remainder is carried forward (even when it
still meets the next threshold), and health is set to 100. In particular
`level = 1, experience = 95` plus a `+10` award yields
`level = 2, experience = 5, health = 100`. A large award crossing several
thresholds still yields only one level-up in that turn. -/
theorem C2_amended_single_levelup (now action narrative : String) (s : GameState) (e : Int)
    (hpos : 0 < e) (hlvl : 0 < jsOrInt s.player.level 1)
    (hacc : 100 * jsOrInt s.player.level 1 ≤ s.player.experience + e) :
    (updateGameState now s action narrative { experience := some e }).player.level
        = some (jsOrInt s.player.level 1 + 1)
    ∧ (updateGameState now s action narrative { experience := some e }).player.experience
        = s.player.experience + e - 100 * jsOrInt s.player.level 1
    ∧ (updateGameState now s action narrative { experience := some e }).player.health = 100 := by
  have hred : updateGameState now s action narrative { experience := some e }
      = truncateHistory (applyLevel (applyTime (tickStatusEffects
          (applyExperience { experience := some e }
            (applyAction now action narrative s))))) := rfl
  set s0 := applyAction now action narrative s with hs0
  set sE := applyExperience { experience := some e } s0 with hsE
  have hE_exp : sE.player.experience = s.player.experience + e := by
    rw [hsE]
    show (if e ≠ 0 then _ else s0).player.experience = _
    rw [if_pos (by omega : e ≠ 0)]
    split <;> rfl
  have hE_level : sE.player.level = s.player.level := by
    rw [hsE]
    show (if e ≠ 0 then _ else s0).player.level = _
    rw [if_pos (by omega : e ≠ 0)]
    split <;> rfl
  set sT := applyTime (tickStatusEffects sE) with hsT
  have hT_exp : sT.player.experience = s.player.experience + e := by
    rw [hsT, applyTime_exp, tick_exp, hE_exp]
  have hT_level : sT.player.level = s.player.level := by
    rw [hsT, applyTime_level, tick_level, hE_level]
  have hthr : jsOrInt sT.player.level 1 = jsOrInt s.player.level 1 := by rw [hT_level]
  have hfire := applyLevel_fire sT
    (by rw [hT_exp]; omega)
    (by rw [hT_exp, hthr]; exact hacc)
  rw [hred]
  refine ⟨?_, ?_, ?_⟩
  · rw [truncateHistory_player, hfire]
    dsimp only
    rw [hthr]
  · rw [truncateHistory_player, hfire]
    dsimp only
    rw [hthr, hT_exp]
  · rw [truncateHistory_player, hfire]

/-- C2 witness: the spec's own example — `level = 1, experience = 95`, a
`+10` award — gives `level = 2, experience = 5, health = 100`. -/
theorem C2_witness :
    (updateGameState "T" (mkState 80 95 (some 1) (some []) 0) "quest" "n"
        { experience := some 10 }).player.level = some 2
    ∧ (updateGameState "T" (mkState 80 95 (some 1) (some []) 0) "quest" "n"
        { experience := some 10 }).player.experience = 5
    ∧ (updateGameState "T" (mkState 80 95 (some 1) (some []) 0) "quest" "n"
        { experience := some 10 }).player.health = 100 :=
  let h := C2_amended_single_levelup "T" "quest" "n" (mkState 80 95 (some 1) (some []) 0) 10
    (by decide) (by decide) (by decide)
  ⟨h.1, h.2.1, h.2.2⟩

/-- C3 counterexample: on a state holding one active status effect, the
empty-change-set turn still mutates `player.statusEffects` (the poison
duration drops from 5 to 4) even though neither a day boundary nor a level
boundary is crossed — so the listed fields are not all unchanged. -/
theorem C3_counterexample :
    (((applyTurn "T" (mkState 50 0 (some 1) (some [poisonEffect]) 0) "wait"
        "NARRATIVE: text\nSTATE_CHANGES: \x7b\x7d").2.player.statusEffects.getD []).map
          (fun e => e.duration) = [4])
    ∧ (((mkState 50 0 (some 1) (some [poisonEffect]) 0).player.statusEffects.getD []).map
          (fun e => e.duration) = [5])
    ∧ ¬ ((mkState 50 0 (some 1) (some [poisonEffect]) 0).timeElapsed + 1) % 24 = 0
    ∧ (mkState 50 0 (some 1) (some [poisonEffect]) 0).player.experience <
        100 * jsOrInt (mkState 50 0 (some 1) (some [poisonEffect]) 0).player.level 1 := by
  refine ⟨by decide, by decide, by decide, by decide⟩

/-- C3 amended: away from day and level boundaries, a turn whose model
response is `NARRATIVE: text\nSTATE_CHANGES: {}` changes only
`gameHistory`, `lastAction`, `timeElapsed`, and the active status effects
(every duration decremented by one, expired effects removed); all other
fields — health, inventory, quests, experience, level, currentLocation,
discoveredLocations, npcRelationships, gameOver, world — are unchanged. -/
theorem C3_amended_empty_turn_frame (now action : String) (s : GameState)
    (hday : ¬ (s.timeElapsed + 1) % 24 = 0)
    (hlevel : s.player.experience < 100 * jsOrInt s.player.level 1) :
    (applyTurn now s action "NARRATIVE: text\nSTATE_CHANGES: \x7b\x7d").1 = "text"
    ∧ (applyTurn now s action "NARRATIVE: text\nSTATE_CHANGES: \x7b\x7d").2 =
        truncateHistory
          { s with
            player := { s.player with
              statusEffects := Option.map tickList s.player.statusEffects }
            gameHistory := s.gameHistory ++
              [{ htype := "action", text := action }, { htype := "narrative", text := "text" }]
            lastAction := some { text := action, timestamp := now }
            timeElapsed := s.timeElapsed + 1 } := by
  constructor
  · rfl
  · show reduceChanges noChanges (applyAction now action "text" s) = _
    show truncateHistory (applyLevel (applyTime (tickStatusEffects
        (applyAction now action "text" s)))) = _
    rw [tickStatusEffects_eq]
    rw [applyTime_noday _ (by exact hday)]
    rw [applyLevel_skip _ (by exact hlevel)]
    rfl

/-- C3 witness: the empty-change-set frame at a concrete off-boundary state
with one active status effect. -/
theorem C3_witness :
    (applyTurn "T" (mkState 50 0 (some 1) (some [poisonEffect]) 0) "wait"
        "NARRATIVE: text\nSTATE_CHANGES: \x7b\x7d").1 = "text"
    ∧ (applyTurn "T" (mkState 50 0 (some 1) (some [poisonEffect]) 0) "wait"
        "NARRATIVE: text\nSTATE_CHANGES: \x7b\x7d").2 =
      truncateHistory
        { mkState 50 0 (some 1) (some [poisonEffect]) 0 with
          player := { (mkState 50 0 (some 1) (some [poisonEffect]) 0).player with
            statusEffects := Option.map tickList
              (mkState 50 0 (some 1) (some [poisonEffect]) 0).player.statusEffects }
          gameHistory := (mkState 50 0 (some 1) (some [poisonEffect]) 0).gameHistory ++
            [{ htype := "action", text := "wait" }, { htype := "narrative", text := "text" }]
          lastAction := some { text := "wait", timestamp := "T" }
          timeElapsed := (mkState 50 0 (some 1) (some [poisonEffect]) 0).timeElapsed + 1 } :=
  C3_amended_empty_turn_frame "T" "wait" (mkState 50 0 (some 1) (some [poisonEffect]) 0)
    (by decide) (by decide)

/-- C4: `parseGameResponse` is total — every raw response yields a
narrative and a validated change set. On the malformed state-changes text
`{"health": 50, "addItems": [oops}` the strict JSON path fails (even after
the trailing-comma repair) and the regex fallback recovers `health = 50`
together with the narrative; and a fallback run in which no field pattern
matches returns the empty change set rather than an error. -/
theorem C4_parse_never_fails :
    (∀ (raw : String) (cur : GameState),
        ∃ n c, parseGameResponse raw cur = (n, c))
    ∧ (parseGameResponse
        "NARRATIVE: You stumble.\nSTATE_CHANGES: \x7b\"health\": 50, \"addItems\": [oops\x7d"
        (mkState 100 0 (some 1) (some []) 0)).1 = "You stumble."
    ∧ (parseGameResponse
        "NARRATIVE: You stumble.\nSTATE_CHANGES: \x7b\"health\": 50, \"addItems\": [oops\x7d"
        (mkState 100 0 (some 1) (some []) 0)).2.health = some 50
    ∧ jsonParse (cleanJsonString (jsTrim " \x7b\"health\": 50, \"addItems\": [oops\x7d")) = none
    ∧ extractAndFixStateChanges " \x7b\"health\": 50, \"addItems\": [oops\x7d"
        = Json.obj [("health", Json.num 50)]
    ∧ extractAndFixStateChanges " not json at all" = Json.obj []
    ∧ (parseGameResponse "NARRATIVE: x\nSTATE_CHANGES: not json at all"
        (mkState 100 0 (some 1) (some []) 0)).2 = noChanges :=
  ⟨fun _ _ => ⟨_, _, rfl⟩, rfl, rfl, rfl, rfl, rfl, rfl⟩

/-- C5 counterexample: with an unparseable model response, `generateWorld`
does NOT return the fixed fallback world unchanged — `enhanceWorldData`
replaces its `nearbyLocations` (and `npcs`, and re-randomizes
`environment`): the returned nearby-location ids are the fantasy-table
defaults, not the fallback world's hard-coded ones. -/
theorem C5_counterexample :
    locIds ((getField (generateWorld ⟨0, 0, 0⟩ (some "sci-fi")
        "The model refused to produce JSON.") "nearbyLocations").getD Json.null)
      = ["village_square", "ancient_ruins", "dark_forest"]
    ∧ locIds ((getField getFallbackWorld "nearbyLocations").getD Json.null)
      = ["village_clearing", "ancient_ruins", "mystic_grove"]
    ∧ (["village_square", "ancient_ruins", "dark_forest"] : List String)
        ≠ ["village_clearing", "ancient_ruins", "mystic_grove"] := by
  refine ⟨by decide, by decide, by decide⟩

/-- C5 amended: when no JSON object can be parsed from the world-generation
response, `generateWorld` falls back to the canonical world for its
identity fields — name, type, description, starting location, intro text,
plot hooks, factions, key items all equal the hard-coded fallback,
regardless of the requested `worldType` — but `enhanceWorldData` then
overwrites `nearbyLocations` and `npcs` with the fantasy lookup-table
defaults and synthesizes a fresh random `environment`, so those three
fields are not the fallback's hard-coded values. -/
theorem C5_amended_fallback_enhanced (r : EnvRand) (worldType : Option String)
    (response : String)
    (hfail : extractBraces response = none ∨
      (∃ t, extractBraces response = some t ∧ jsonParse t = none))
    (w : Json) (hw : w = generateWorld r worldType response) :
    getField w "name" = getField getFallbackWorld "name"
    ∧ getField w "type" = getField getFallbackWorld "type"
    ∧ getField w "description" = getField getFallbackWorld "description"
    ∧ getField w "startingLocation" = getField getFallbackWorld "startingLocation"
    ∧ getField w "introText" = getField getFallbackWorld "introText"
    ∧ getField w "potentialPlotHooks" = getField getFallbackWorld "potentialPlotHooks"
    ∧ getField w "factions" = getField getFallbackWorld "factions"
    ∧ getField w "keyItems" = getField getFallbackWorld "keyItems"
    ∧ getField w "nearbyLocations" = some (Json.arr (locationSets "fantasy"))
    ∧ getField w "npcs" = some (Json.arr (npcSets "fantasy"))
    ∧ getField w "environment" = some (Json.obj
        [("time", Json.str (pickIdx
            ["dawn", "morning", "midday", "afternoon", "dusk", "evening", "night", "midnight"]
            r.tIdx)),
         ("weather", Json.str (pickIdx (weatherSets "fantasy") r.wIdx)),
         ("season", Json.str (pickIdx ["spring", "summer", "autumn", "winter"] r.sIdx))]) := by
  have hparse : parseWorldGeneration response = getFallbackWorld := by
    rcases hfail with h | ⟨t, ht, hj⟩
    · unfold parseWorldGeneration; rw [h]
    · unfold parseWorldGeneration
      rw [ht]
      dsimp only
      rw [hj]
  subst hw
  unfold generateWorld
  rw [hparse]
  exact ⟨rfl, rfl, rfl, rfl, rfl, rfl, rfl, rfl, rfl, rfl, rfl⟩

/-- C5 witness: the amended behavior at a concrete unparseable sci-fi
request. -/
theorem C5_witness :
    getField (generateWorld ⟨0, 0, 0⟩ (some "sci-fi") "The model refused to produce JSON.")
        "name" = getField getFallbackWorld "name"
    ∧ getField (generateWorld ⟨0, 0, 0⟩ (some "sci-fi") "The model refused to produce JSON.")
        "type" = getField getFallbackWorld "type"
    ∧ getField (generateWorld ⟨0, 0, 0⟩ (some "sci-fi") "The model refused to produce JSON.")
        "nearbyLocations" = some (Json.arr (locationSets "fantasy")) :=
  let h := C5_amended_fallback_enhanced ⟨0, 0, 0⟩ (some "sci-fi")
    "The model refused to produce JSON." (Or.inl (by decide)) _ rfl
  ⟨h.1, h.2.1, h.2.2.2.2.2.2.2.2.1⟩

/-- C6 counterexample: two runs of `applyTurn` on the same previous state,
action, and model response — differing only in the ambient wall-clock
reading (`new Date().toISOString()` in the source) — return different game
states: the recorded `lastAction.timestamp` differs. -/
theorem C6_counterexample :
    (applyTurn "2024-01-01T00:00:00Z" (mkState 50 0 (some 1) (some []) 0) "look"
        "NARRATIVE: ok\nSTATE_CHANGES: \x7b\x7d").2
      ≠ (applyTurn "2024-01-02T00:00:00Z" (mkState 50 0 (some 1) (some []) 0) "look"
          "NARRATIVE: ok\nSTATE_CHANGES: \x7b\x7d").2 :=
  fun h => absurd (congrArg GameState.lastAction h) (by decide)

/-- C6 amended: `applyTurn` is deterministic in everything except the
wall-clock timestamp stored in `lastAction`: for any two clock readings
and the same previous state, action, and model-response text, the returned
narrative is identical and the two new states agree after erasing
`lastAction.timestamp`. (The uniform-random environment synthesis of the
world-generator pipeline is the other non-deterministic input; it is
isolated to `generateEnvironment`.) -/
theorem C6_amended_deterministic_up_to_clock (t1 t2 : String) (s : GameState)
    (action rawResponse : String) :
    (applyTurn t1 s action rawResponse).1 = (applyTurn t2 s action rawResponse).1
    ∧ scrubTime (applyTurn t1 s action rawResponse).2
        = scrubTime (applyTurn t2 s action rawResponse).2 := by
  refine ⟨rfl, ?_⟩
  have h1 : (applyTurn t1 s action rawResponse).2
      = setLA (applyTurn t2 s action rawResponse).2 (some ⟨action, t1⟩) := by
    show reduceChanges (parseGameResponse rawResponse s).2
        (applyAction t1 action (parseGameResponse rawResponse s).1 s) = _
    rw [show applyAction t1 action (parseGameResponse rawResponse s).1 s
          = setLA (applyAction t2 action (parseGameResponse rawResponse s).1 s)
              (some ⟨action, t1⟩) from rfl]
    rw [reduceChanges_la]
    rfl
  have h2 : (applyTurn t2 s action rawResponse).2.lastAction = some ⟨action, t2⟩ := by
    show (reduceChanges (parseGameResponse rawResponse s).2
        (applyAction t2 action (parseGameResponse rawResponse s).1 s)).lastAction = _
    rw [reduceChanges_lastAction]
    rfl
  rw [h1]
  unfold scrubTime setLA
  dsimp only
  rw [h2]
  rfl

/-- C7: starting from a history of at most 50 entries, a turn leaves at
most 50 entries, and the new history is exactly the most recent 50-entry
suffix of the old history plus the appended entries, in original order
(oldest evicted first). -/
theorem C7_history_cap (now action narrative : String) (s : GameState)
    (ch : ValidatedChanges) (hlen : s.gameHistory.length ≤ 50) :
    (updateGameState now s action narrative ch).gameHistory.length ≤ 50
    ∧ ∃ appended, (updateGameState now s action narrative ch).gameHistory
        = (s.gameHistory ++ appended).drop ((s.gameHistory ++ appended).length - 50) := by
  constructor
  · exact truncateHistory_le50 _
  · obtain ⟨es, hes⟩ := reduceChanges_hist ch (applyAction now action narrative s)
    refine ⟨[{ htype := "action", text := action },
             { htype := "narrative", text := narrative }] ++ es, ?_⟩
    rw [show (updateGameState now s action narrative ch)
          = reduceChanges ch (applyAction now action narrative s) from rfl, hes]
    rw [show (applyAction now action narrative s).gameHistory
          = s.gameHistory ++ [{ htype := "action", text := action },
              { htype := "narrative", text := narrative }] from rfl]
    rw [List.append_assoc]

/-- C7 witness: the cap at a concrete state. -/
theorem C7_witness :
    (updateGameState "T" (mkState 50 0 (some 1) (some []) 0) "look" "n"
        noChanges).gameHistory.length ≤ 50
    ∧ ∃ appended, (updateGameState "T" (mkState 50 0 (some 1) (some []) 0) "look" "n"
        noChanges).gameHistory
        = ((mkState 50 0 (some 1) (some []) 0).gameHistory ++ appended).drop
            (((mkState 50 0 (some 1) (some []) 0).gameHistory ++ appended).length - 50) :=
  C7_history_cap "T" "look" "n" (mkState 50 0 (some 1) (some []) 0) noChanges (by decide)

/-- C8: `discoveredLocations` is append-only — every turn's result extends
the previous list, so membership (in particular the starting location's id,
which `initializeGameState` places there) is preserved forever; and
applying a `newLocation` whose id is already discovered neither appends it
again, nor awards the +10 discovery experience, nor emits the discovery
log entry (the location step then only replaces `currentLocation`). -/
theorem C8_discovered_append_only :
    (∀ (now action narrative : String) (s : GameState) (ch : ValidatedChanges),
      ∃ tail, (updateGameState now s action narrative ch).discoveredLocations
        = s.discoveredLocations ++ tail)
    ∧ (∀ (now action narrative : String) (s : GameState) (ch : ValidatedChanges) (x : String),
        x ∈ s.discoveredLocations →
        x ∈ (updateGameState now s action narrative ch).discoveredLocations)
    ∧ (∀ (characterName : String) (ws : WorldSettings),
        (initializeGameState characterName ws).discoveredLocations = [ws.startingLocation.id])
    ∧ (∀ (ch : ValidatedChanges) (loc : Location) (s : GameState),
        ch.newLocation = some loc → s.discoveredLocations.contains loc.id = true →
        applyLocation ch s = { s with currentLocation := loc })
    ∧ (∀ (now action narrative : String) (s : GameState) (ch : ValidatedChanges)
        (loc : Location), ch.newLocation = some loc →
        s.discoveredLocations.contains loc.id = true →
        (updateGameState now s action narrative ch).discoveredLocations
          = s.discoveredLocations) := by
  refine ⟨?_, ?_, ?_, ?_, ?_⟩
  · intro now action narrative s ch
    exact reduceChanges_disc ch (applyAction now action narrative s)
  · intro now action narrative s ch x hx
    obtain ⟨tail, ht⟩ := reduceChanges_disc ch (applyAction now action narrative s)
    rw [show (updateGameState now s action narrative ch)
          = reduceChanges ch (applyAction now action narrative s) from rfl, ht]
    exact List.mem_append_left tail hx
  · intro characterName ws
    rfl
  · intro ch loc s h hm
    exact applyLocation_seen h s hm
  · intro now action narrative s ch loc h hm
    exact reduceChanges_disc_seen ch h (applyAction now action narrative s) hm

/-- C8 witness: re-entering the already discovered `forest_edge` leaves
`discoveredLocations` (and membership of the starting id) intact. -/
theorem C8_witness :
    (∃ tail, (updateGameState "T" (mkState 50 0 (some 1) (some []) 0) "go" "n"
        { newLocation := some forestEdge }).discoveredLocations
        = (mkState 50 0 (some 1) (some []) 0).discoveredLocations ++ tail)
    ∧ "forest_edge" ∈ (updateGameState "T" (mkState 50 0 (some 1) (some []) 0) "go" "n"
        { newLocation := some forestEdge }).discoveredLocations
    ∧ (initializeGameState "Adventurer"
        { name := "Eldoria", wtype := "fantasy", description := "d"
          startingLocation := forestEdge, introText := "i" }).discoveredLocations
        = [forestEdge.id]
    ∧ applyLocation { newLocation := some forestEdge } (mkState 50 0 (some 1) (some []) 0)
        = { mkState 50 0 (some 1) (some []) 0 with currentLocation := forestEdge }
    ∧ (updateGameState "T" (mkState 50 0 (some 1) (some []) 0) "go" "n"
        { newLocation := some forestEdge }).discoveredLocations
        = (mkState 50 0 (some 1) (some []) 0).discoveredLocations :=
  ⟨C8_discovered_append_only.1 "T" "go" "n" (mkState 50 0 (some 1) (some []) 0)
      { newLocation := some forestEdge },
   C8_discovered_append_only.2.1 "T" "go" "n" (mkState 50 0 (some 1) (some []) 0)
      { newLocation := some forestEdge } "forest_edge" (by decide),
   C8_discovered_append_only.2.2.1 "Adventurer"
      { name := "Eldoria", wtype := "fantasy", description := "d"
        startingLocation := forestEdge, introText := "i" },
   C8_discovered_append_only.2.2.2.1 { newLocation := some forestEdge } forestEdge
      (mkState 50 0 (some 1) (some []) 0) rfl (by decide),
   C8_discovered_append_only.2.2.2.2 "T" "go" "n" (mkState 50 0 (some 1) (some []) 0)
      { newLocation := some forestEdge } forestEdge rfl (by decide)⟩

/-- C9: the trailing-comma repair is a blind textual substitution — on the
syntactically valid JSON text `{"addItems": ["a, }b"]}` (whose string value
contains a comma-space-brace sequence) the repair rewrites the string
literal itself, so the decoded change set of the primary path differs from
a direct `JSON.parse` of the original text: the item decodes as `a}b`
instead of `a, }b`. -/
theorem C9_repair_corrupts_strings :
    jsonParse "\x7b\"addItems\": [\"a, \x7db\"]\x7d"
      = some (Json.obj [("addItems", Json.arr [Json.str "a, \x7db"])])
    ∧ cleanJsonString "\x7b\"addItems\": [\"a, \x7db\"]\x7d"
      = "\x7b\"addItems\": [\"a\x7db\"]\x7d"
    ∧ decodeStateChanges "NARRATIVE: x\nSTATE_CHANGES: \x7b\"addItems\": [\"a, \x7db\"]\x7d"
      = Json.obj [("addItems", Json.arr [Json.str "a\x7db"])]
    ∧ strItems (getField (Json.obj [("addItems", Json.arr [Json.str "a, \x7db"])]) "addItems")
      ≠ strItems (getField (Json.obj [("addItems", Json.arr [Json.str "a\x7db"])]) "addItems") :=
  ⟨rfl, rfl, rfl, by decide⟩

/-- C10 counterexample: at `NARRATIVE:STATE_CHANGES: {"addQuests": [null]}`
the capture between the markers is empty, yet the decoded change set makes
`validateStateChanges` throw (`typeof null === 'object'` is true, so the
`addQuests` filter evaluates `null.title`), and `parseGameResponse`'s
`catch` returns the fixed generic narrative and the empty change set — not
the sanitized whole response the claim asserts. -/
theorem C10_counterexample :
    narrativeCapture "NARRATIVE:STATE_CHANGES: \x7b\"addQuests\": [null]\x7d" = some ""
    ∧ (parseGameResponse "NARRATIVE:STATE_CHANGES: \x7b\"addQuests\": [null]\x7d"
        (mkState 90 0 (some 1) (some []) 0)).1
        = "The magical forces seem confused. Please try another action."
    ∧ sanitizeNarrative "NARRATIVE:STATE_CHANGES: \x7b\"addQuests\": [null]\x7d"
        = "\x7b\"addQuests\": [null]\x7d"
    ∧ (parseGameResponse "NARRATIVE:STATE_CHANGES: \x7b\"addQuests\": [null]\x7d"
        (mkState 90 0 (some 1) (some []) 0)).1
        ≠ sanitizeNarrative "NARRATIVE:STATE_CHANGES: \x7b\"addQuests\": [null]\x7d"
    ∧ (parseGameResponse "NARRATIVE:STATE_CHANGES: \x7b\"addQuests\": [null]\x7d"
        (mkState 90 0 (some 1) (some []) 0)).2 = noChanges := by
  refine ⟨rfl, rfl, rfl, by decide, rfl⟩

/-- C10 amended: whenever the text captured between the `NARRATIVE:` and
`STATE_CHANGES:` markers is empty — not only when the marker is entirely
absent — the whole-string fallback makes the entire raw response, with
markers, headings and fenced code blocks stripped by sanitization, the
returned narrative, and the state-changes section is still decoded,
validated and applied, PROVIDED the validation of the decoded change set
does not throw; when it throws (e.g. a `null` element in an `addQuests`
array), the outer catch returns the fixed generic narrative and the empty
change set instead. -/
theorem C10_empty_capture_fallback (raw : String) (cur : GameState)
    (h : narrativeCapture raw = some "") :
    (∀ v, validateStateChanges (decodeStateChanges raw) cur = some v →
      (parseGameResponse raw cur).1 = sanitizeNarrative raw
      ∧ (parseGameResponse raw cur).2 = v)
    ∧ (validateStateChanges (decodeStateChanges raw) cur = none →
      parseGameResponse raw cur
        = ("The magical forces seem confused. Please try another action.", noChanges)) := by
  constructor
  · intro v hv
    have hpair : parseGameResponse raw cur = (sanitizeNarrative raw, v) := by
      unfold parseGameResponse
      dsimp only
      rw [hv, h]
      rfl
    rw [hpair]
    exact ⟨rfl, rfl⟩
  · intro hn
    unfold parseGameResponse
    dsimp only
    rw [hn]

/-- C10 witness: on `NARRATIVE:STATE_CHANGES: {"health": 40}` the capture
is empty, validation succeeds, the sanitized whole response (the
state-changes JSON text) becomes the narrative, and `health = 40` is still
decoded and applied. -/
theorem C10_witness :
    narrativeCapture "NARRATIVE:STATE_CHANGES: \x7b\"health\": 40\x7d" = some ""
    ∧ (parseGameResponse "NARRATIVE:STATE_CHANGES: \x7b\"health\": 40\x7d"
        (mkState 90 0 (some 1) (some []) 0)).1 = "\x7b\"health\": 40\x7d"
    ∧ (parseGameResponse "NARRATIVE:STATE_CHANGES: \x7b\"health\": 40\x7d"
        (mkState 90 0 (some 1) (some []) 0)).2.health = some 40 := by
  have h := (C10_empty_capture_fallback "NARRATIVE:STATE_CHANGES: \x7b\"health\": 40\x7d"
    (mkState 90 0 (some 1) (some []) 0) rfl).1
    (validatedFields
      (decodeStateChanges "NARRATIVE:STATE_CHANGES: \x7b\"health\": 40\x7d")
      (mkState 90 0 (some 1) (some []) 0)) rfl
  exact ⟨rfl, by rw [h.1]; rfl, by rw [h.2]; rfl⟩
